import Mathlib

/-!
# Managed worker threads of xeniface (`src/xeniface/thread.c`)

A shallow embedding of `thread.c`.  The structure `_XENIFACE_THREAD` becomes a
structure, the small functions on it (`__ThreadWake`, `__ThreadAlert`,
`ThreadIsAlerted`, ...) become pure functions, and the three functions whose
behaviour depends on the interleaving of the creating thread, the worker
thread and the joining thread (`ThreadCreate`, `ThreadFunction`,
`ThreadJoin`) become statement-level step functions on a system state.  A
program counter is named after the source line of the statement it is about
to execute.

What `thread.c` obtains from outside is a parameter of the model (`Env`): the
results of `KeGetCurrentIrql`, `KeGetCurrentThread`, `PsCreateSystemThread` and
`ObReferenceObjectByHandle`, the pointer and the contents of the block returned
by `__AllocateNonPagedPoolWithTag` (`util.h`), and the status returned by the
worker function.  A call of `__FreePoolWithTag` (`util.h`) is recorded in the
history of the state.  The logging calls `Warning` and `Error` change nothing
and are left out.  `LONG` and `NTSTATUS` are integers; the decrements wrap to 32
bits.
-/

namespace Xeniface

/-! ## Platform constants (Windows DDK) -/

/-- The value of `STATUS_SUCCESS`. -/
def STATUS_SUCCESS : Int := 0

/-- The value of `STATUS_NO_MEMORY` (0xC0000017) read as a signed 32-bit `NTSTATUS`. -/
def STATUS_NO_MEMORY : Int := -1073741801

/-- The DDK test `NT_SUCCESS(status)`: the signed status is non-negative. -/
def NT_SUCCESS (status : Int) : Bool := decide (0 ≤ status)

/-- The IRQL `PASSIVE_LEVEL`. -/
def PASSIVE_LEVEL : Nat := 0

/-- The null pointer. -/
def NULL : Nat := 0

/-- Two's-complement wrap of an integer into the range of a 32-bit `LONG`. -/
def wrapLONG (x : Int) : Int := (x + 2147483648) % 4294967296 - 2147483648

/-! ## The worker structure and the functions on it -/

/-- The structure `struct _XENIFACE_THREAD` (lines 41-48).  Pointers are natural
numbers, the `KEVENT` is its signal state. -/
structure XENIFACE_THREAD where
  Function : Nat
  Context : Nat
  Event : Bool
  Alerted : Bool
  References : Int
  Thread : Nat
deriving DecidableEq, Repr

/-- The call `KeSetEvent(&Event, IO_NO_INCREMENT, FALSE)`: the event becomes signalled. -/
def KeSetEvent (_Event : Bool) : Bool := true

/-- The call `KeInitializeEvent(&Event, NotificationEvent, State)`. -/
def KeInitializeEvent (State : Bool) : Bool := State

/-- Lines 66-72. -/
def __ThreadWake (Thread : XENIFACE_THREAD) : XENIFACE_THREAD :=
  { Thread with Event := KeSetEvent Thread.Event }

/-- Lines 74-80. -/
def ThreadWake (Thread : XENIFACE_THREAD) : XENIFACE_THREAD :=
  __ThreadWake Thread

/-- Lines 82-89. -/
def __ThreadAlert (Thread : XENIFACE_THREAD) : XENIFACE_THREAD :=
  __ThreadWake { Thread with Alerted := true }

/-- Lines 91-97. -/
def ThreadAlert (Thread : XENIFACE_THREAD) : XENIFACE_THREAD :=
  __ThreadAlert Thread

/-- Lines 190-196: the event of the worker. -/
def ThreadGetEvent (Thread : XENIFACE_THREAD) : Bool :=
  Thread.Event

/-- Lines 198-204. -/
def ThreadIsAlerted (Thread : XENIFACE_THREAD) : Bool :=
  Thread.Alerted

/-- The call `InterlockedDecrement(&Thread->References)`: the new value and the
updated structure. -/
def InterlockedDecrement (Thread : XENIFACE_THREAD) : Int × XENIFACE_THREAD :=
  (wrapLONG (Thread.References - 1),
   { Thread with References := wrapLONG (Thread.References - 1) })

/-- A call made through the public interface by a holder of the worker handle. -/
inductive Call
  | wake
  | alert
deriving DecidableEq, Repr

/-- The effect of one interface call on the worker structure. -/
def Call.apply : Call → XENIFACE_THREAD → XENIFACE_THREAD
  | .wake, t => ThreadWake t
  | .alert, t => ThreadAlert t

/-- The effect of a sequence of interface calls, first call first. -/
def applyCalls : List Call → XENIFACE_THREAD → XENIFACE_THREAD
  | [], t => t
  | c :: cs, t => applyCalls cs (c.apply t)

/-- Apply `ThreadAlert` `n` times. -/
def alertTimes : Nat → XENIFACE_THREAD → XENIFACE_THREAD
  | 0, t => t
  | n + 1, t => alertTimes n (ThreadAlert t)

/-! ## The system state -/

/-- The threads that execute code of `thread.c`. -/
inductive Actor
  | creator
  | worker
  | joiner
deriving DecidableEq, Repr

/-- A record of one decrement of `References`. -/
structure DecEvent where
  who : Actor
  before : Int
  after : Int
deriving DecidableEq, Repr

/-- A record of one call of `__ThreadFree`; `observed` is the value the freeing
thread got back from its own decrement. -/
structure FreeEvent where
  who : Actor
  observed : Int
deriving DecidableEq, Repr

/-- The assertions of `thread.c`, named by their line. -/
inductive Fault
  | L128
  | L213
  | L214
  | L223
deriving DecidableEq, Repr

/-- Program counter of the thread executing `ThreadCreate`: the line of the next
statement, `ret status` once the function has returned `status`.  `L180 r`
carries the value returned by the decrement of line 179. -/
inductive CreatorPC
  | L128 | L130 | L134 | L138 | L145 | L152 | L153 | L157 | L163 | L166 | L168
  | L173 | L174 | L179 | L180 (r : Int) | L182 | L185
  | ret (status : Int)
deriving DecidableEq, Repr

/-- Program counter of the worker thread in `ThreadFunction`: `absent` while no
thread exists, `L111 status` after the worker function returned `status`,
`L112 status r` after the decrement returned `r`. -/
inductive WorkerPC
  | absent
  | L109
  | L111 (status : Int)
  | L112 (status : Int) (r : Int)
  | L114 (status : Int)
  | terminated (status : Int)
deriving DecidableEq, Repr

/-- Program counter of the thread executing `ThreadJoin`: `idle` before the
call, `blocked` inside `KeWaitForSingleObject`, `L223 r` and `L225 r` after the
decrement returned `r` into the local `References`. -/
inductive JoinPC
  | idle
  | L213 | L214 | L216
  | blocked
  | L222
  | L223 (r : Int)
  | L225 (r : Int)
  | done
deriving DecidableEq, Repr

/-- What the code receives from outside `thread.c`: the results of the
platform calls and of the caller-supplied worker function, and the values of
uninitialised storage. -/
structure Env where
  /-- Result of `KeGetCurrentIrql()` in `ThreadCreate`. -/
  irql : Nat
  /-- Pointer returned by `__ThreadAllocate`. -/
  allocResult : Nat
  /-- Contents of the block returned by `__ThreadAllocate`. -/
  raw : XENIFACE_THREAD
  /-- Status returned by `PsCreateSystemThread`. -/
  createStatus : Int
  /-- Handle stored by `PsCreateSystemThread` on success. -/
  handle : Nat
  /-- Status returned by `ObReferenceObjectByHandle`. -/
  refStatus : Int
  /-- Thread object stored by `ObReferenceObjectByHandle` on success: the worker thread. -/
  kthread : Nat
  /-- Status returned by the worker function, given the function and its context. -/
  invoke : Nat → Nat → Int
  /-- Result of `KeGetCurrentIrql()` in `ThreadJoin`. -/
  joinIrql : Nat
  /-- Result of `KeGetCurrentThread()` in `ThreadJoin`. -/
  joinCaller : Nat
  /-- Value of the caller's variable `*Thread` before the call. -/
  outBefore : Nat
  /-- Value of the uninitialised local `status`. -/
  statusBefore : Int
  /-- Value of the uninitialised local `Handle`. -/
  handleBefore : Nat

/-- The state of the system: the arguments and locals of `ThreadCreate`, the
allocated block (its contents are kept after the block is freed), the three
program counters, and the history of decrements, frees, waits and closed
handles. -/
structure Sys where
  env : Env
  Function : Nat
  Context : Nat
  out : Nat
  status : Int
  Handle : Nat
  pool : Option XENIFACE_THREAD
  cpc : CreatorPC
  wpc : WorkerPC
  jpc : JoinPC
  fault : Option Fault
  decs : List DecEvent
  frees : List FreeEvent
  waits : Nat
  closed : List Nat

/-- The state in which `ThreadCreate(Function, Context, Thread)` is entered. -/
def boot (env : Env) (Function Context : Nat) : Sys :=
  { env := env, Function := Function, Context := Context,
    out := env.outBefore, status := env.statusBefore, Handle := env.handleBefore,
    pool := none, cpc := .L128, wpc := .absent, jpc := .idle, fault := none,
    decs := [], frees := [], waits := 0, closed := [] }

/-- Modelled from the spec: the macros `ASSERT3U` and `ASSERT3P` of `assert.h`,
which is not among the sources.  The spec makes an invariant violation fail
fast: when the condition holds execution continues with `next`, otherwise the
system stops with the fault recorded and nothing else changed. -/
def ASSERT (cond : Bool) (f : Fault) (s next : Sys) : Sys :=
  if cond then next else { s with fault := some f }

/-- The call `__ThreadFree` by `who`, whose decrement returned `observed`. -/
def Sys.free (s : Sys) (who : Actor) (observed : Int) : Sys :=
  { s with frees := s.frees ++ [⟨who, observed⟩] }

/-- One statement of `ThreadCreate` (lines 118-188).  When
`ObReferenceObjectByHandle` fails, the field `Thread` is left as it was. -/
def ThreadCreate_step (s : Sys) : Option Sys :=
  match s.cpc with
  -- ASSERT3U(KeGetCurrentIrql(), ==, PASSIVE_LEVEL)
  | .L128 => some (ASSERT (decide (s.env.irql = PASSIVE_LEVEL)) .L128 s { s with cpc := .L130 })
  -- (*Thread) = __ThreadAllocate(sizeof (XENIFACE_THREAD))
  | .L130 =>
    some { s with out := s.env.allocResult,
                  pool := if s.env.allocResult = NULL then none else some s.env.raw,
                  cpc := .L134 }
  -- status = STATUS_NO_MEMORY; if (*Thread == NULL) goto fail1
  | .L134 =>
    some { s with status := STATUS_NO_MEMORY,
                  cpc := if s.out = NULL then .L185 else .L138 }
  -- Function, Context, Alerted = FALSE, References = 2, KeInitializeEvent (lines 138-143)
  | .L138 =>
    s.pool.map fun t =>
      { s with pool := some { t with Function := s.Function, Context := s.Context,
                                     Alerted := false, References := 2,
                                     Event := KeInitializeEvent false },
               cpc := .L145 }
  -- status = PsCreateSystemThread(&Handle, ..., ThreadFunction, *Thread)
  | .L145 =>
    some (if NT_SUCCESS s.env.createStatus then
            { s with status := s.env.createStatus, Handle := s.env.handle,
                     wpc := .L109, cpc := .L152 }
          else
            { s with status := s.env.createStatus, cpc := .L152 })
  -- if (!NT_SUCCESS(status))
  | .L152 => some { s with cpc := if NT_SUCCESS s.status then .L157 else .L153 }
  -- --(*Thread)->References; goto fail2
  | .L153 =>
    s.pool.map fun t =>
      { s with pool := some { t with References := wrapLONG (t.References - 1) },
               decs := s.decs ++ [⟨.creator, t.References, wrapLONG (t.References - 1)⟩],
               cpc := .L179 }
  -- status = ObReferenceObjectByHandle(Handle, ..., &(*Thread)->Thread, NULL)
  | .L157 =>
    s.pool.map fun t =>
      if NT_SUCCESS s.env.refStatus then
        { s with status := s.env.refStatus,
                 pool := some { t with Thread := s.env.kthread }, cpc := .L163 }
      else
        { s with status := s.env.refStatus, cpc := .L163 }
  -- if (!NT_SUCCESS(status)) goto fail3
  | .L163 => some { s with cpc := if NT_SUCCESS s.status then .L166 else .L173 }
  -- ZwClose(Handle)
  | .L166 => some { s with closed := s.closed ++ [s.Handle], cpc := .L168 }
  -- return STATUS_SUCCESS
  | .L168 => some { s with cpc := .ret STATUS_SUCCESS }
  -- fail3: __ThreadAlert(*Thread)
  | .L173 => s.pool.map fun t => { s with pool := some (__ThreadAlert t), cpc := .L174 }
  -- ZwClose(Handle)
  | .L174 => some { s with closed := s.closed ++ [s.Handle], cpc := .L179 }
  -- fail2: InterlockedDecrement(&(*Thread)->References)
  | .L179 =>
    s.pool.map fun t =>
      { s with pool := some (InterlockedDecrement t).2,
               decs := s.decs ++ [⟨.creator, t.References, (InterlockedDecrement t).1⟩],
               cpc := .L180 (InterlockedDecrement t).1 }
  -- if (... == 0) __ThreadFree(*Thread)
  | .L180 r => some (if r = 0 then { s.free .creator r with cpc := .L182 } else { s with cpc := .L182 })
  -- *Thread = NULL
  | .L182 => some { s with out := NULL, cpc := .L185 }
  -- fail1: return status
  | .L185 => some { s with cpc := .ret s.status }
  | .ret _ => none

/-- One statement of `ThreadFunction` (lines 101-116), run by the worker thread. -/
def ThreadFunction_step (s : Sys) : Option Sys :=
  match s.wpc with
  | .absent => none
  -- status = Self->Function(Self, Self->Context)
  | .L109 => s.pool.map fun t => { s with wpc := .L111 (s.env.invoke t.Function t.Context) }
  -- InterlockedDecrement(&Self->References)
  | .L111 status =>
    s.pool.map fun t =>
      { s with pool := some (InterlockedDecrement t).2,
               decs := s.decs ++ [⟨.worker, t.References, (InterlockedDecrement t).1⟩],
               wpc := .L112 status (InterlockedDecrement t).1 }
  -- if (... == 0) __ThreadFree(Self)
  | .L112 status r =>
    some (if r = 0 then { s.free .worker r with wpc := .L114 status } else { s with wpc := .L114 status })
  -- PsTerminateSystemThread(status)
  | .L114 status => some { s with wpc := .terminated status }
  | .terminated _ => none

/-- One statement of `ThreadJoin` (lines 206-226), in any state of the system: the
function itself does not look at what `ThreadCreate` has done.  The wait of line 216
is on the thread object stored in the worker: when that object is the worker thread
the wait resolves once the worker thread has terminated; nothing is known of a wait on
another object, which may resolve at any time. -/
def ThreadJoin_step (s : Sys) : Option Sys :=
  match s.jpc with
  -- the call ThreadJoin(Thread)
  | .idle => some { s with jpc := .L213 }
  -- ASSERT3U(KeGetCurrentIrql(), ==, PASSIVE_LEVEL)
  | .L213 => some (ASSERT (decide (s.env.joinIrql = PASSIVE_LEVEL)) .L213 s { s with jpc := .L214 })
  -- ASSERT3P(KeGetCurrentThread(), !=, Thread->Thread)
  | .L214 => s.pool.map fun t => ASSERT (decide (s.env.joinCaller ≠ t.Thread)) .L214 s { s with jpc := .L216 }
  -- KeWaitForSingleObject(Thread->Thread, ...) is entered
  | .L216 => some { s with waits := s.waits + 1, jpc := .blocked }
  -- KeWaitForSingleObject returns
  | .blocked =>
    s.pool.bind fun t =>
      if t.Thread = s.env.kthread then
        match s.wpc with
        | .terminated _ => some { s with jpc := .L222 }
        | _ => none
      else some { s with jpc := .L222 }
  -- References = InterlockedDecrement(&Thread->References)
  | .L222 =>
    s.pool.map fun t =>
      { s with pool := some (InterlockedDecrement t).2,
               decs := s.decs ++ [⟨.joiner, t.References, (InterlockedDecrement t).1⟩],
               jpc := .L223 (InterlockedDecrement t).1 }
  -- ASSERT3U(References, ==, 0)
  | .L223 r => some (ASSERT (decide (r = 0)) .L223 s { s with jpc := .L225 r })
  -- __ThreadFree(Thread)
  | .L225 r => some { s.free .joiner r with jpc := .done }
  | .done => none

/-- The function `ThreadJoin` executed by its caller with no other thread moving: at
most `fuel` statements, stopping at a failed assertion or at its end; `none` when a
statement cannot be executed (the wait does not resolve). -/
def ThreadJoin_run : Nat → Sys → Option Sys
  | 0, s => some s
  | fuel + 1, s =>
    if s.fault.isSome then some s
    else
      match s.jpc with
      | .done => some s
      | _ => (ThreadJoin_step s).bind (ThreadJoin_run fuel)

/-- The moves of the system: the next statement of one of the three threads, or
a call of `ThreadWake` or `ThreadAlert` by some holder of the worker handle. -/
inductive Label
  | creator
  | worker
  | joiner
  | wake
  | alert
deriving DecidableEq, Repr

/-- A call through the handle: possible once the worker thread has been given
the structure and while the structure has not been freed. -/
def call_step (c : Call) (s : Sys) : Option Sys :=
  if s.wpc = .absent then none
  else if s.frees = [] then s.pool.map fun t => { s with pool := some (c.apply t) }
  else none

/-- A move of the joining thread in a schedule.  In the schedules the call of
`ThreadJoin` is made with the handle that a successful `ThreadCreate` has returned;
once called, `ThreadJoin` runs its statements. -/
def join_step (s : Sys) : Option Sys :=
  match s.jpc with
  | .idle =>
    match s.cpc with
    | .ret status => if NT_SUCCESS status then ThreadJoin_step s else none
    | _ => none
  | _ => ThreadJoin_step s

/-- One move of the system.  After a failed assertion nothing moves. -/
def step (l : Label) (s : Sys) : Option Sys :=
  if s.fault.isSome then none
  else
    match l with
    | .creator => ThreadCreate_step s
    | .worker => ThreadFunction_step s
    | .joiner => join_step s
    | .wake => call_step .wake s
    | .alert => call_step .alert s

/-- Run a schedule, first move first; `none` when some move is not possible. -/
def run : List Label → Sys → Option Sys
  | [], s => some s
  | l :: ls, s => (step l s).bind (run ls)

/-- The function `ThreadCreate` executed in isolation up to its return, with at most
`fuel` statements; `none` when it does not return (failed assertion). -/
def ThreadCreate_run : Nat → Sys → Option Sys
  | 0, _ => none
  | fuel + 1, s =>
    match s.cpc with
    | .ret _ => some s
    | _ => (step .creator s).bind (ThreadCreate_run fuel)

/-- The function `ThreadCreate(Function, Context, Thread)`: the state at its return. -/
def ThreadCreate (env : Env) (Function Context : Nat) : Option Sys :=
  ThreadCreate_run 16 (boot env Function Context)

/-- The value of `References` in the allocated block. -/
def Sys.References (s : Sys) : Option Int := s.pool.map (·.References)

/-! ## Invariants of the system, example environments and schedules -/

/-- The worker has been alerted and its event is signalled. -/
def alertedOK (s : Sys) : Prop :=
  ∀ t, s.pool = some t → t.Alerted = true ∧ t.Event = true

/-- The thread object stored in the worker is the worker thread. -/
def threadOK (s : Sys) : Prop :=
  ∀ t, s.pool = some t → t.Thread = s.env.kthread

/-- What holds of the locals once `ThreadCreate` is on its way out through `fail2`,
where `st` is the status it is about to return. -/
def failTail (s : Sys) (st : Int) : Prop :=
  s.env.allocResult ≠ NULL ∧
  if s.wpc = .absent then
    st = s.env.createStatus ∧ NT_SUCCESS s.env.createStatus = false ∧ s.closed = []
  else
    st = s.env.refStatus ∧ NT_SUCCESS s.env.createStatus = true ∧
    NT_SUCCESS s.env.refStatus = false ∧ s.closed = [s.env.handle] ∧ alertedOK s

/-- What holds of the locals of `ThreadCreate` at each of its statements. -/
def CreatorOK (s : Sys) : Prop :=
  (s.jpc = .idle ∨ ∃ st, s.cpc = .ret st ∧ NT_SUCCESS st = true) ∧
  match s.cpc with
  | .L128 | .L130 => s.pool = none ∧ s.wpc = .absent ∧ s.closed = []
  | .L134 =>
    s.wpc = .absent ∧ s.closed = [] ∧ s.out = s.env.allocResult ∧
    s.pool = (if s.env.allocResult = NULL then none else some s.env.raw)
  | .L138 =>
    s.wpc = .absent ∧ s.closed = [] ∧ s.out = s.env.allocResult ∧ s.env.allocResult ≠ NULL ∧
    s.pool = some s.env.raw
  | .L145 =>
    s.wpc = .absent ∧ s.closed = [] ∧ s.out = s.env.allocResult ∧ s.env.allocResult ≠ NULL ∧
    s.pool = some { s.env.raw with Function := s.Function, Context := s.Context,
                                   Alerted := false, References := 2, Event := false }
  | .L152 =>
    s.closed = [] ∧ s.out = s.env.allocResult ∧ s.env.allocResult ≠ NULL ∧ s.pool.isSome = true ∧
    s.status = s.env.createStatus ∧
    (if NT_SUCCESS s.env.createStatus then s.wpc ≠ .absent ∧ s.Handle = s.env.handle
     else s.wpc = .absent)
  | .L153 =>
    s.closed = [] ∧ s.env.allocResult ≠ NULL ∧ s.pool.isSome = true ∧
    s.status = s.env.createStatus ∧ NT_SUCCESS s.env.createStatus = false ∧ s.wpc = .absent
  | .L157 =>
    s.closed = [] ∧ s.out = s.env.allocResult ∧ s.env.allocResult ≠ NULL ∧ s.pool.isSome = true ∧
    NT_SUCCESS s.env.createStatus = true ∧ s.wpc ≠ .absent ∧ s.Handle = s.env.handle
  | .L163 =>
    s.closed = [] ∧ s.out = s.env.allocResult ∧ s.env.allocResult ≠ NULL ∧ s.pool.isSome = true ∧
    NT_SUCCESS s.env.createStatus = true ∧ s.wpc ≠ .absent ∧ s.Handle = s.env.handle ∧
    s.status = s.env.refStatus ∧ (NT_SUCCESS s.env.refStatus = true → threadOK s)
  | .L166 =>
    s.closed = [] ∧ s.out = s.env.allocResult ∧ s.env.allocResult ≠ NULL ∧ s.pool.isSome = true ∧
    NT_SUCCESS s.env.createStatus = true ∧ s.wpc ≠ .absent ∧ s.Handle = s.env.handle ∧
    NT_SUCCESS s.env.refStatus = true ∧ threadOK s
  | .L168 =>
    s.closed = [s.env.handle] ∧ s.out = s.env.allocResult ∧ s.env.allocResult ≠ NULL ∧
    s.pool.isSome = true ∧ NT_SUCCESS s.env.createStatus = true ∧ s.wpc ≠ .absent ∧
    NT_SUCCESS s.env.refStatus = true ∧ threadOK s
  | .L173 =>
    s.closed = [] ∧ s.env.allocResult ≠ NULL ∧ s.pool.isSome = true ∧
    NT_SUCCESS s.env.createStatus = true ∧ s.wpc ≠ .absent ∧ s.Handle = s.env.handle ∧
    s.status = s.env.refStatus ∧ NT_SUCCESS s.env.refStatus = false
  | .L174 =>
    s.closed = [] ∧ s.env.allocResult ≠ NULL ∧ s.pool.isSome = true ∧
    NT_SUCCESS s.env.createStatus = true ∧ s.wpc ≠ .absent ∧ s.Handle = s.env.handle ∧
    s.status = s.env.refStatus ∧ NT_SUCCESS s.env.refStatus = false ∧ alertedOK s
  | .L179 | .L180 _ | .L182 => s.pool.isSome = true ∧ failTail s s.status
  | .L185 =>
    s.out = NULL ∧
    (if s.pool.isSome then failTail s s.status
     else s.status = STATUS_NO_MEMORY ∧ s.env.allocResult = NULL ∧ s.wpc = .absent ∧
          s.closed = [])
  | .ret st =>
    if NT_SUCCESS st then
      st = STATUS_SUCCESS ∧ s.closed = [s.env.handle] ∧ s.out = s.env.allocResult ∧
      s.env.allocResult ≠ NULL ∧ s.pool.isSome = true ∧ NT_SUCCESS s.env.createStatus = true ∧
      s.wpc ≠ .absent ∧ NT_SUCCESS s.env.refStatus = true ∧ threadOK s
    else
      s.out = NULL ∧
      (if s.pool.isSome then failTail s st
       else st = STATUS_NO_MEMORY ∧ s.env.allocResult = NULL ∧ s.wpc = .absent ∧
            s.closed = [])

/-- The creating side (the tail of `ThreadCreate`, or `ThreadJoin`) has performed its
decrement. -/
def cDone (s : Sys) : Bool :=
  match s.cpc with
  | .L180 _ | .L182 => true
  | .L185 => s.pool.isSome
  | .ret st =>
    if NT_SUCCESS st then
      match s.jpc with
      | .L223 _ | .L225 _ | .done => true
      | _ => false
    else s.pool.isSome
  | _ => false

/-- The worker side (the worker thread, or line 153 standing in for it) has performed
its decrement. -/
def wDone (s : Sys) : Bool :=
  match s.wpc with
  | .absent =>
    match s.cpc with
    | .L179 | .L180 _ | .L182 => true
    | .L185 | .ret _ => s.pool.isSome
    | _ => false
  | .L109 | .L111 _ => false
  | _ => true

/-- The thread that decrements for the creating side. -/
def cWho (s : Sys) : Actor :=
  match s.jpc with
  | .L223 _ | .L225 _ | .done => .joiner
  | _ => .creator

/-- The thread that decrements for the worker side. -/
def wWho (s : Sys) : Actor :=
  match s.wpc with
  | .absent => .creator
  | _ => .worker

/-- The decrement result the creating side holds and has not yet acted on. -/
def cObs (s : Sys) : Option Int :=
  match s.cpc with
  | .L180 r => some r
  | _ =>
    match s.jpc with
    | .L223 r | .L225 r => some r
    | _ => none

/-- The decrement result the worker thread holds and has not yet acted on. -/
def wObs (s : Sys) : Option Int :=
  match s.wpc with
  | .L112 _ r => some r
  | _ => none

/-- The history of decrements and frees agrees with the program counters. -/
def Books (s : Sys) : Prop :=
  match cDone s, wDone s with
  | false, false => s.decs = [] ∧ s.frees = []
  | true, false =>
    s.decs = [⟨cWho s, 2, 1⟩] ∧ s.frees = [] ∧ (cObs s = none ∨ cObs s = some 1)
  | false, true =>
    s.decs = [⟨wWho s, 2, 1⟩] ∧ s.frees = [] ∧ (wObs s = none ∨ wObs s = some 1)
  | true, true =>
    (s.decs = [⟨cWho s, 2, 1⟩, ⟨wWho s, 1, 0⟩] ∧ (cObs s = none ∨ cObs s = some 1) ∧
      ((wObs s = some 0 ∧ s.frees = []) ∨ (wObs s = none ∧ s.frees = [⟨wWho s, 0⟩]))) ∨
    (s.decs = [⟨wWho s, 2, 1⟩, ⟨cWho s, 1, 0⟩] ∧ (wObs s = none ∨ wObs s = some 1) ∧
      ((cObs s = some 0 ∧ s.frees = []) ∨ (cObs s = none ∧ s.frees = [⟨cWho s, 0⟩])))

/-- The fields of the worker have been initialised (line 141 has been executed). -/
def initialised : CreatorPC → Bool
  | .L128 | .L130 | .L134 | .L138 => false
  | _ => true

/-- The wait of `ThreadJoin` has resolved. -/
def waited : JoinPC → Bool
  | .L222 | .L223 _ | .L225 _ | .done => true
  | _ => false

/-- The wait of `ThreadJoin` has been issued. -/
def issued : JoinPC → Bool
  | .blocked | .L222 | .L223 _ | .L225 _ | .done => true
  | _ => false

/-- The decrement of `ThreadJoin` has been performed. -/
def decremented : JoinPC → Bool
  | .L223 _ | .L225 _ | .done => true
  | _ => false

/-- The call `ThreadJoin` has not got past the assertion of line 214. -/
def early : JoinPC → Bool
  | .idle | .L213 | .L214 => true
  | _ => false

/-- The reference count agrees with the history, and `ThreadJoin` decrements only
after the worker thread has terminated and then reads zero. -/
structure Ledger (s : Sys) : Prop where
  books : Books s
  refs : ∀ t, s.pool = some t → initialised s.cpc = true → t.References = 2 - s.decs.length
  after : waited s.jpc = true → ∃ st, s.wpc = .terminated st
  zero : ∀ r, (s.jpc = .L223 r ∨ s.jpc = .L225 r) → r = 0
  fields : ∀ t, s.pool = some t → initialised s.cpc = true →
    t.Function = s.Function ∧ t.Context = s.Context
  waits : s.waits = if issued s.jpc = true then 1 else 0
  last : decremented s.jpc = true → s.decs = [⟨.worker, 2, 1⟩, ⟨.joiner, 1, 0⟩]
  self : s.env.joinCaller = s.env.kthread → early s.jpc = true
  nofault : s.fault ≠ some .L223

/-- The invariant of the system. -/
def Inv (s : Sys) : Prop := CreatorOK s ∧ Ledger s

/-- The exit step of `ThreadFunction` (the decrement of line 111 and the conditional
free of line 112) has been taken. -/
def exited : WorkerPC → Bool
  | .L114 _ | .terminated _ => true
  | _ => false

/-- An environment in which every platform call succeeds, the worker function returns
status 0 and `ThreadJoin` is called by a thread other than the worker. -/
def envOK : Env :=
  { irql := PASSIVE_LEVEL, allocResult := 4096,
    raw := ⟨7, 7, true, true, 99, 7⟩,
    createStatus := STATUS_SUCCESS, handle := 12, refStatus := STATUS_SUCCESS, kthread := 77,
    invoke := fun _ _ => 0, joinIrql := PASSIVE_LEVEL, joinCaller := 5,
    outBefore := 3, statusBefore := 9, handleBefore := 8 }

/-- The state in which `ThreadCreate` returns in `envOK`. -/
def createdOK : Sys :=
  { boot envOK 1 2 with
    out := 4096, status := 0, Handle := 12, cpc := .ret STATUS_SUCCESS, wpc := .L109,
    pool := some ⟨1, 2, false, false, 2, 77⟩, closed := [12] }

/-- The worker runs to termination, then `ThreadJoin` runs to its end. -/
def schedJoin : List Label :=
  [.worker, .worker, .worker, .worker,
   .joiner, .joiner, .joiner, .joiner, .joiner, .joiner, .joiner, .joiner]

/-- The state after `schedJoin`. -/
def joinedOK : Sys :=
  { createdOK with
    wpc := .terminated 0, jpc := .done, pool := some ⟨1, 2, false, false, 0, 77⟩,
    decs := [⟨.worker, 2, 1⟩, ⟨.joiner, 1, 0⟩], frees := [⟨.joiner, 0⟩], waits := 1 }

/-- The worker function returns and `ThreadFunction` runs to the termination of the
thread. -/
def schedExit : List Label := [.worker, .worker, .worker, .worker]

/-- The state after `schedExit`. -/
def exitedOK : Sys :=
  { createdOK with
    wpc := .terminated 0, pool := some ⟨1, 2, false, false, 1, 77⟩,
    decs := [⟨.worker, 2, 1⟩] }

/-- The ten statements of `ThreadCreate` on its successful path, then the worker runs to
termination, then `ThreadJoin` runs up to its assertion of line 223. -/
def schedJoinDec : List Label :=
  List.replicate 10 Label.creator ++
  [.worker, .worker, .worker, .worker, .joiner, .joiner, .joiner, .joiner, .joiner, .joiner]

/-- The state after `schedJoinDec`, run from the entry of `ThreadCreate`. -/
def joinDecOK : Sys :=
  { createdOK with
    wpc := .terminated 0, jpc := .L223 0, pool := some ⟨1, 2, false, false, 0, 77⟩,
    decs := [⟨.worker, 2, 1⟩, ⟨.joiner, 1, 0⟩], waits := 1 }

/-- An environment in which `PsCreateSystemThread` fails with `STATUS_NO_MEMORY`. -/
def envNoThread : Env := { envOK with createStatus := STATUS_NO_MEMORY }

/-- An environment in which the allocation fails. -/
def envNoMemory : Env := { envOK with allocResult := NULL }

/-- On the `fail3` path: all of `ThreadCreate`, then all of `ThreadFunction`. -/
def schedCreatorFirst : List Label :=
  [.creator, .creator, .creator, .creator, .creator, .creator, .creator, .creator,
   .creator, .creator, .creator, .creator, .creator, .creator,
   .worker, .worker, .worker, .worker]

/-- On the `fail3` path: `ThreadCreate` up to its jump to `fail3`, then all of
`ThreadFunction`, then the rest of `ThreadCreate`. -/
def schedWorkerFirst : List Label :=
  [.creator, .creator, .creator, .creator, .creator, .creator, .creator, .creator,
   .worker, .worker, .worker, .worker,
   .creator, .creator, .creator, .creator, .creator, .creator]

/-- An environment in which `ObReferenceObjectByHandle` fails with `STATUS_NO_MEMORY`. -/
def envNoReference : Env := { envOK with refStatus := STATUS_NO_MEMORY }

/-- An environment in which the thread that calls `ThreadJoin` is the worker thread. -/
def envSelf : Env := { envOK with joinCaller := 77 }

/-- The ten statements of `ThreadCreate`, then `ThreadJoin` up to the assertion of line
214. -/
def schedSelf : List Label :=
  List.replicate 10 Label.creator ++ [.joiner, .joiner]

/-- The state after the first five statements of `ThreadCreate` in `envSelf`: the
thread has been started and the worker function is running, but the field `Thread`
still holds what the allocation left there. -/
def startedSelf : Sys :=
  { boot envSelf 1 2 with
    out := 4096, status := 0, Handle := 12, cpc := .L152, wpc := .L109,
    pool := some ⟨1, 2, false, false, 2, 7⟩ }

/-- The first seven statements of `ThreadCreate`, up to and including the call of
`ObReferenceObjectByHandle` that stores the thread object. -/
def schedStored : List Label := List.replicate 7 Label.creator

/-- The state after `schedStored` in `envSelf`: `ThreadCreate` has not returned, the
worker function is running and the thread object is stored. -/
def storedSelf : Sys :=
  { boot envSelf 1 2 with
    out := 4096, status := 0, Handle := 12, cpc := .L163, wpc := .L109,
    pool := some ⟨1, 2, false, false, 2, 77⟩ }

/-- The state after `schedSelf` in `envSelf`. -/
def selfJoining : Sys :=
  { boot envSelf 1 2 with
    out := 4096, status := 0, Handle := 12, cpc := .ret STATUS_SUCCESS, wpc := .L109,
    jpc := .L214, pool := some ⟨1, 2, false, false, 2, 77⟩, closed := [12] }

/-! ## Theorems -/

theorem NT_SUCCESS_STATUS_SUCCESS : NT_SUCCESS STATUS_SUCCESS = true := by decide

theorem NT_SUCCESS_STATUS_NO_MEMORY : NT_SUCCESS STATUS_NO_MEMORY = false := by decide

theorem CreatorOK_boot (env : Env) (F C : Nat) : CreatorOK (boot env F C) := by
  simp [CreatorOK, boot]

theorem CreatorOK_creator {s s' : Sys} (hs : CreatorOK s) (h : ThreadCreate_step s = some s') :
    CreatorOK s' := by
  obtain ⟨env, F, C, out, status, Handle, pool, cpc, wpc, jpc, fault, decs, frees, waits, closed⟩ := s
  cases cpc <;> cases pool <;> simp [ThreadCreate_step, ASSERT, Sys.free] at h <;>
    (try split at h) <;> subst h <;>
    simp [CreatorOK, failTail, alertedOK, threadOK, __ThreadAlert, __ThreadWake, KeSetEvent, KeInitializeEvent, InterlockedDecrement, NT_SUCCESS_STATUS_SUCCESS, NT_SUCCESS_STATUS_NO_MEMORY] at hs ⊢ <;>
    (try casesm* _ ∧ _) <;> (try subst_vars) <;>
    (try simp_all [NT_SUCCESS_STATUS_SUCCESS, NT_SUCCESS_STATUS_NO_MEMORY]) <;>
    (try (split_ifs at * <;> simp_all))

theorem CreatorOK_worker {s s' : Sys} (hs : CreatorOK s) (h : ThreadFunction_step s = some s') :
    CreatorOK s' := by
  obtain ⟨env, F, C, out, status, Handle, pool, cpc, wpc, jpc, fault, decs, frees, waits, closed⟩ := s
  cases wpc <;> cases pool <;> simp [ThreadFunction_step, Sys.free] at h <;>
    (try split at h) <;> subst h <;>
    cases cpc <;>
    simp [CreatorOK, failTail, alertedOK, threadOK, InterlockedDecrement] at hs ⊢ <;>
    (try casesm* _ ∧ _) <;> (try subst_vars) <;>
    (try simp_all)

theorem CreatorOK_joiner {s s' : Sys} (hs : CreatorOK s) (h : join_step s = some s') :
    CreatorOK s' := by
  obtain ⟨env, F, C, out, status, Handle, pool, cpc, wpc, jpc, fault, decs, frees, waits, closed⟩ := s
  cases jpc <;> cases cpc <;> simp [CreatorOK] at hs <;>
    cases pool <;> simp [join_step, ThreadJoin_step, ASSERT, Sys.free] at h <;>
    (repeat' split at h) <;> (try simp at h) <;>
    (first | subst h | (obtain ⟨h1, h⟩ := h; subst h)) <;>
    simp [CreatorOK, failTail, alertedOK, threadOK, InterlockedDecrement] at hs ⊢ <;>
    (try casesm* _ ∧ _) <;> (try subst_vars) <;>
    (try simp_all [NT_SUCCESS_STATUS_SUCCESS, NT_SUCCESS_STATUS_NO_MEMORY])

theorem CreatorOK_call {c : Call} {s s' : Sys} (hs : CreatorOK s) (h : call_step c s = some s') :
    CreatorOK s' := by
  obtain ⟨env, F, C, out, status, Handle, pool, cpc, wpc, jpc, fault, decs, frees, waits, closed⟩ := s
  cases pool <;> simp [call_step] at h
  obtain ⟨hw, hf, h⟩ := h
  subst h
  cases c <;> cases cpc <;>
    simp [CreatorOK, failTail, alertedOK, threadOK, Call.apply, ThreadWake, ThreadAlert, __ThreadAlert, __ThreadWake, KeSetEvent] at hs ⊢ <;>
    (try casesm* _ ∧ _) <;> (try subst_vars) <;>
    (try simp_all) <;>
    (try (split_ifs at * <;> simp_all))

theorem CreatorOK_step {l : Label} {s s' : Sys} (hs : CreatorOK s) (h : step l s = some s') :
    CreatorOK s' := by
  unfold step at h
  split at h
  · simp at h
  · cases l
    · exact CreatorOK_creator hs h
    · exact CreatorOK_worker hs h
    · exact CreatorOK_joiner hs h
    · exact CreatorOK_call hs h
    · exact CreatorOK_call hs h

theorem wrapLONG_small {x : Int} (h1 : -2147483648 ≤ x) (h2 : x < 2147483648) : wrapLONG x = x := by
  unfold wrapLONG
  omega

theorem wrapLONG_zero : wrapLONG 0 = 0 := by decide

theorem wrapLONG_one : wrapLONG 1 = 1 := by decide

theorem Ledger_boot (env : Env) (F C : Nat) : Ledger (boot env F C) := by
  constructor <;> simp [Books, boot, cDone, wDone, initialised, waited, issued, decremented, early]

set_option maxHeartbeats 4000000 in
theorem Ledger_creator {s s' : Sys} (hc : CreatorOK s) (hs : Ledger s)
    (h : ThreadCreate_step s = some s') : Ledger s' := by
  obtain ⟨env, F, C, out, status, Handle, pool, cpc, wpc, jpc, fault, decs, frees, waits, closed⟩ := s
  obtain ⟨hb, hr, ha, hz, hfl, hwt, hjl, hsf, hnf⟩ := hs
  cases cpc <;> rcases pool with _ | ⟨⟨tF, tC, tE, tA, tR, tT⟩⟩ <;>
    simp [ThreadCreate_step, ASSERT, Sys.free] at h <;>
    (try split at h) <;> subst h <;>
    cases jpc <;>
    simp [CreatorOK, failTail, initialised, waited, issued, decremented, early] at hc hr ha hz hfl hwt hjl hsf hnf <;>
    (refine ⟨?_, ?_, ?_, ?_, ?_, ?_, ?_, ?_, ?_⟩) <;>
    cases wpc <;>
    simp [Books, cDone, wDone, cWho, wWho, cObs, wObs, initialised, waited, issued, decremented, early, InterlockedDecrement, __ThreadAlert, __ThreadWake, NT_SUCCESS_STATUS_SUCCESS] at hc hb ⊢ <;>
    (try casesm* _ ∧ _) <;> (try subst_vars) <;>
    (try simp_all [wrapLONG_zero, wrapLONG_one, waited, issued, decremented, early])

set_option maxHeartbeats 4000000 in
theorem Ledger_worker {s s' : Sys} (hc : CreatorOK s) (hs : Ledger s)
    (h : ThreadFunction_step s = some s') : Ledger s' := by
  obtain ⟨env, F, C, out, status, Handle, pool, cpc, wpc, jpc, fault, decs, frees, waits, closed⟩ := s
  obtain ⟨hb, hr, ha, hz, hfl, hwt, hjl, hsf, hnf⟩ := hs
  cases wpc <;> cases pool <;> simp [ThreadFunction_step, Sys.free] at h <;>
    (try split at h) <;> subst h <;>
    cases cpc <;> cases jpc <;>
    simp [CreatorOK, failTail, initialised, waited, issued, decremented, early] at hc hr ha hz hfl hwt hjl hsf hnf <;>
    (try split at hc) <;>
    (refine ⟨?_, ?_, ?_, ?_, ?_, ?_, ?_, ?_, ?_⟩) <;>
    simp [Books, cDone, wDone, cWho, wWho, cObs, wObs, initialised, waited, issued, decremented, early, InterlockedDecrement, NT_SUCCESS_STATUS_SUCCESS] at hc hb ⊢ <;>
    (try casesm* _ ∧ _) <;> (try subst_vars) <;>
    (try simp_all [wrapLONG_zero, wrapLONG_one, waited, issued, decremented, early])

set_option maxHeartbeats 4000000 in
theorem Ledger_joiner {s s' : Sys} (hc : CreatorOK s) (hs : Ledger s)
    (h : join_step s = some s') : Ledger s' := by
  obtain ⟨env, F, C, out, status, Handle, pool, cpc, wpc, jpc, fault, decs, frees, waits, closed⟩ := s
  obtain ⟨hb, hr, ha, hz, hfl, hwt, hjl, hsf, hnf⟩ := hs
  cases jpc <;> cases cpc <;> simp [CreatorOK] at hc <;>
    cases wpc <;>
    cases pool <;> simp [join_step, ThreadJoin_step, ASSERT, Sys.free] at h <;>
    (try split at h) <;>
    (first | subst h | (obtain ⟨h1, h⟩ := h; subst h)) <;>
    simp [failTail, initialised, waited, issued, decremented, early, threadOK] at hc hr ha hz hfl hwt hjl hsf hnf <;>
    (try split at hc) <;>
    (refine ⟨?_, ?_, ?_, ?_, ?_, ?_, ?_, ?_, ?_⟩) <;>
    simp [Books, cDone, wDone, cWho, wWho, cObs, wObs, initialised, waited, issued, decremented, early, InterlockedDecrement, NT_SUCCESS_STATUS_SUCCESS] at hc hb ⊢ <;>
    (try casesm* _ ∧ _) <;> (try subst_vars) <;>
    (try simp_all [wrapLONG_zero, wrapLONG_one, waited, issued, decremented, early])

theorem Ledger_call {c : Call} {s s' : Sys} (hs : Ledger s) (h : call_step c s = some s') :
    Ledger s' := by
  obtain ⟨env, F, C, out, status, Handle, pool, cpc, wpc, jpc, fault, decs, frees, waits, closed⟩ := s
  obtain ⟨hb, hr, ha, hz, hfl, hwt, hjl, hsf, hnf⟩ := hs
  cases pool <;> simp [call_step] at h
  obtain ⟨hw, hf, h⟩ := h
  subst h
  refine ⟨?_, ?_, ha, hz, ?_, hwt, hjl, hsf, hnf⟩
  · simpa [Books, cDone, wDone, cWho, wWho, cObs, wObs] using hb
  · cases c <;>
      simpa [Call.apply, ThreadWake, ThreadAlert, __ThreadAlert, __ThreadWake] using hr
  · cases c <;>
      simpa [Call.apply, ThreadWake, ThreadAlert, __ThreadAlert, __ThreadWake] using hfl

theorem Inv_boot (env : Env) (F C : Nat) : Inv (boot env F C) :=
  ⟨CreatorOK_boot env F C, Ledger_boot env F C⟩

theorem Inv_step {l : Label} {s s' : Sys} (hs : Inv s) (h : step l s = some s') : Inv s' := by
  refine ⟨CreatorOK_step hs.1 h, ?_⟩
  unfold step at h
  split at h
  · simp at h
  · cases l
    · exact Ledger_creator hs.1 hs.2 h
    · exact Ledger_worker hs.1 hs.2 h
    · exact Ledger_joiner hs.1 hs.2 h
    · exact Ledger_call hs.2 h
    · exact Ledger_call hs.2 h

theorem Inv_run {ls : List Label} {s s' : Sys} (hs : Inv s) (h : run ls s = some s') : Inv s' := by
  induction ls generalizing s with
  | nil =>
    simp [run] at h
    exact h ▸ hs
  | cons l ls ih =>
    simp only [run] at h
    cases hl : step l s with
    | none => simp [hl] at h
    | some m =>
      rw [hl] at h
      exact ih (Inv_step hs hl) h

theorem step_env {l : Label} {s s' : Sys} (h : step l s = some s') :
    s'.env = s.env ∧ s'.Function = s.Function ∧ s'.Context = s.Context := by
  obtain ⟨env, F, C, out, status, Handle, pool, cpc, wpc, jpc, fault, decs, frees, waits, closed⟩ := s
  unfold step at h
  split at h
  · simp at h
  · cases l
    · cases cpc <;> cases pool <;> simp [ThreadCreate_step, ASSERT, Sys.free] at h <;>
        (try split at h) <;> subst h <;> simp
    · cases wpc <;> cases pool <;> simp [ThreadFunction_step, Sys.free] at h <;>
        (try split at h) <;> subst h <;> simp
    · cases jpc <;> cases pool <;>
        simp only [join_step, ThreadJoin_step, ASSERT, Sys.free, Option.map, Option.bind] at h <;>
        (repeat' split at h) <;> simp at h <;> (try (obtain ⟨-, h⟩ := h)) <;>
        simp
    · cases pool <;> simp [call_step] at h
      obtain ⟨hw, hf, h⟩ := h
      subst h; simp
    · cases pool <;> simp [call_step] at h
      obtain ⟨hw, hf, h⟩ := h
      subst h; simp

theorem run_env {ls : List Label} {s s' : Sys} (h : run ls s = some s') :
    s'.env = s.env ∧ s'.Function = s.Function ∧ s'.Context = s.Context := by
  induction ls generalizing s with
  | nil =>
    simp [run] at h
    subst h; simp
  | cons l ls ih =>
    simp only [run] at h
    cases hl : step l s with
    | none => simp [hl] at h
    | some m =>
      rw [hl] at h
      have h1 := step_env hl
      have h2 := ih h
      exact ⟨h2.1.trans h1.1, h2.2.1.trans h1.2.1, h2.2.2.trans h1.2.2⟩

theorem run_append (l1 l2 : List Label) (s : Sys) :
    run (l1 ++ l2) s = (run l1 s).bind (run l2) := by
  induction l1 generalizing s with
  | nil => simp [run]
  | cons l ls ih =>
    simp only [List.cons_append, run]
    cases step l s with
    | none => simp
    | some m => simpa using ih m

theorem ThreadCreate_run_reach {n : Nat} {s s0 : Sys} (h : ThreadCreate_run n s = some s0) :
    ∃ ls, run ls s = some s0 := by
  induction n generalizing s with
  | zero => simp [ThreadCreate_run] at h
  | succ n ih =>
    unfold ThreadCreate_run at h
    split at h
    · exact ⟨[], by simpa [run] using h⟩
    · cases hl : step .creator s with
      | none => simp [hl] at h
      | some m =>
        rw [hl] at h
        obtain ⟨ls, hls⟩ := @ih m (by simpa using h)
        exact ⟨.creator :: ls, by simp [run, hl, hls]⟩

theorem ThreadCreate_run_ret (n : Nat) (s : Sys) (st : Int) (h : s.cpc = .ret st) :
    ThreadCreate_run (n + 1) s = some s := by
  simp [ThreadCreate_run, h]

theorem ThreadCreate_run_step (n : Nat) (s m : Sys) (hf : s.fault = none)
    (h : ThreadCreate_step s = some m) :
    ThreadCreate_run (n + 1) s = ThreadCreate_run n m := by
  have hs : step .creator s = some m := by simp [step, hf, h]
  rw [ThreadCreate_run]
  split
  · next st hc => simp [ThreadCreate_step, hc] at h
  · simp [hs]

theorem ThreadCreate_fail1 (env : Env) (F C : Nat) (hirql : env.irql = PASSIVE_LEVEL)
    (halloc : env.allocResult = NULL) :
    ThreadCreate env F C = some { boot env F C with out := NULL, status := STATUS_NO_MEMORY, cpc := .ret STATUS_NO_MEMORY } := by
  unfold ThreadCreate
  rw [ThreadCreate_run_step _ _ _ rfl (by simp [ThreadCreate_step, boot, ASSERT, hirql]; rfl)]
  rw [ThreadCreate_run_step _ _ _ rfl (by simp [ThreadCreate_step, halloc]; rfl)]
  rw [ThreadCreate_run_step _ _ _ rfl (by simp [ThreadCreate_step, halloc]; rfl)]
  rw [ThreadCreate_run_step _ _ _ rfl (by simp [ThreadCreate_step]; rfl)]
  rw [ThreadCreate_run_ret _ _ _ rfl]
  simp [boot, halloc]

theorem ThreadCreate_fail2 (env : Env) (F C : Nat) (hirql : env.irql = PASSIVE_LEVEL)
    (halloc : env.allocResult ≠ NULL) (hcreate : NT_SUCCESS env.createStatus = false) :
    ThreadCreate env F C = some { boot env F C with
      out := NULL, status := env.createStatus, cpc := .ret env.createStatus,
      pool := some { env.raw with Function := F, Context := C, Alerted := false,
                                  References := 0, Event := false },
      decs := [⟨.creator, 2, 1⟩, ⟨.creator, 1, 0⟩], frees := [⟨.creator, 0⟩] } := by
  unfold ThreadCreate
  rw [ThreadCreate_run_step _ _ _ rfl (by simp [ThreadCreate_step, boot, ASSERT, Sys.free, InterlockedDecrement, KeInitializeEvent, __ThreadAlert, __ThreadWake, KeSetEvent, wrapLONG_zero, wrapLONG_one, hirql, halloc, hcreate]; rfl)]
  rw [ThreadCreate_run_step _ _ _ rfl (by simp [ThreadCreate_step, boot, ASSERT, Sys.free, InterlockedDecrement, KeInitializeEvent, __ThreadAlert, __ThreadWake, KeSetEvent, wrapLONG_zero, wrapLONG_one, hirql, halloc, hcreate]; rfl)]
  rw [ThreadCreate_run_step _ _ _ rfl (by simp [ThreadCreate_step, boot, ASSERT, Sys.free, InterlockedDecrement, KeInitializeEvent, __ThreadAlert, __ThreadWake, KeSetEvent, wrapLONG_zero, wrapLONG_one, hirql, halloc, hcreate]; rfl)]
  rw [ThreadCreate_run_step _ _ _ rfl (by simp [ThreadCreate_step, boot, ASSERT, Sys.free, InterlockedDecrement, KeInitializeEvent, __ThreadAlert, __ThreadWake, KeSetEvent, wrapLONG_zero, wrapLONG_one, hirql, halloc, hcreate]; rfl)]
  rw [ThreadCreate_run_step _ _ _ rfl (by simp [ThreadCreate_step, boot, ASSERT, Sys.free, InterlockedDecrement, KeInitializeEvent, __ThreadAlert, __ThreadWake, KeSetEvent, wrapLONG_zero, wrapLONG_one, hirql, halloc, hcreate]; rfl)]
  rw [ThreadCreate_run_step _ _ _ rfl (by simp [ThreadCreate_step, boot, ASSERT, Sys.free, InterlockedDecrement, KeInitializeEvent, __ThreadAlert, __ThreadWake, KeSetEvent, wrapLONG_zero, wrapLONG_one, hirql, halloc, hcreate]; rfl)]
  rw [ThreadCreate_run_step _ _ _ rfl (by simp [ThreadCreate_step, boot, ASSERT, Sys.free, InterlockedDecrement, KeInitializeEvent, __ThreadAlert, __ThreadWake, KeSetEvent, wrapLONG_zero, wrapLONG_one, hirql, halloc, hcreate]; rfl)]
  rw [ThreadCreate_run_step _ _ _ rfl (by simp [ThreadCreate_step, boot, ASSERT, Sys.free, InterlockedDecrement, KeInitializeEvent, __ThreadAlert, __ThreadWake, KeSetEvent, wrapLONG_zero, wrapLONG_one, hirql, halloc, hcreate]; rfl)]
  rw [ThreadCreate_run_step _ _ _ rfl (by simp [ThreadCreate_step, boot, ASSERT, Sys.free, InterlockedDecrement, KeInitializeEvent, __ThreadAlert, __ThreadWake, KeSetEvent, wrapLONG_zero, wrapLONG_one, hirql, halloc, hcreate]; rfl)]
  rw [ThreadCreate_run_step _ _ _ rfl (by simp [ThreadCreate_step, boot, ASSERT, Sys.free, InterlockedDecrement, KeInitializeEvent, __ThreadAlert, __ThreadWake, KeSetEvent, wrapLONG_zero, wrapLONG_one, hirql, halloc, hcreate]; rfl)]
  rw [ThreadCreate_run_step _ _ _ rfl (by simp [ThreadCreate_step, boot, ASSERT, Sys.free, InterlockedDecrement, KeInitializeEvent, __ThreadAlert, __ThreadWake, KeSetEvent, wrapLONG_zero, wrapLONG_one, hirql, halloc, hcreate]; rfl)]
  rw [ThreadCreate_run_ret _ _ _ rfl]
  simp [boot]

theorem ThreadCreate_fail3 (env : Env) (F C : Nat) (hirql : env.irql = PASSIVE_LEVEL)
    (halloc : env.allocResult ≠ NULL) (hcreate : NT_SUCCESS env.createStatus = true)
    (href : NT_SUCCESS env.refStatus = false) :
    ThreadCreate env F C = some { boot env F C with
      out := NULL, status := env.refStatus, Handle := env.handle, cpc := .ret env.refStatus,
      wpc := .L109,
      pool := some { env.raw with Function := F, Context := C, Alerted := true,
                                  References := 1, Event := true },
      decs := [⟨.creator, 2, 1⟩], closed := [env.handle] } := by
  unfold ThreadCreate
  rw [ThreadCreate_run_step _ _ _ rfl (by simp [ThreadCreate_step, boot, ASSERT, Sys.free, InterlockedDecrement, KeInitializeEvent, __ThreadAlert, __ThreadWake, KeSetEvent, wrapLONG_zero, wrapLONG_one, hirql, halloc, hcreate, href]; rfl)]
  rw [ThreadCreate_run_step _ _ _ rfl (by simp [ThreadCreate_step, boot, ASSERT, Sys.free, InterlockedDecrement, KeInitializeEvent, __ThreadAlert, __ThreadWake, KeSetEvent, wrapLONG_zero, wrapLONG_one, hirql, halloc, hcreate, href]; rfl)]
  rw [ThreadCreate_run_step _ _ _ rfl (by simp [ThreadCreate_step, boot, ASSERT, Sys.free, InterlockedDecrement, KeInitializeEvent, __ThreadAlert, __ThreadWake, KeSetEvent, wrapLONG_zero, wrapLONG_one, hirql, halloc, hcreate, href]; rfl)]
  rw [ThreadCreate_run_step _ _ _ rfl (by simp [ThreadCreate_step, boot, ASSERT, Sys.free, InterlockedDecrement, KeInitializeEvent, __ThreadAlert, __ThreadWake, KeSetEvent, wrapLONG_zero, wrapLONG_one, hirql, halloc, hcreate, href]; rfl)]
  rw [ThreadCreate_run_step _ _ _ rfl (by simp [ThreadCreate_step, boot, ASSERT, Sys.free, InterlockedDecrement, KeInitializeEvent, __ThreadAlert, __ThreadWake, KeSetEvent, wrapLONG_zero, wrapLONG_one, hirql, halloc, hcreate, href]; rfl)]
  rw [ThreadCreate_run_step _ _ _ rfl (by simp [ThreadCreate_step, boot, ASSERT, Sys.free, InterlockedDecrement, KeInitializeEvent, __ThreadAlert, __ThreadWake, KeSetEvent, wrapLONG_zero, wrapLONG_one, hirql, halloc, hcreate, href]; rfl)]
  rw [ThreadCreate_run_step _ _ _ rfl (by simp [ThreadCreate_step, boot, ASSERT, Sys.free, InterlockedDecrement, KeInitializeEvent, __ThreadAlert, __ThreadWake, KeSetEvent, wrapLONG_zero, wrapLONG_one, hirql, halloc, hcreate, href]; rfl)]
  rw [ThreadCreate_run_step _ _ _ rfl (by simp [ThreadCreate_step, boot, ASSERT, Sys.free, InterlockedDecrement, KeInitializeEvent, __ThreadAlert, __ThreadWake, KeSetEvent, wrapLONG_zero, wrapLONG_one, hirql, halloc, hcreate, href]; rfl)]
  rw [ThreadCreate_run_step _ _ _ rfl (by simp [ThreadCreate_step, boot, ASSERT, Sys.free, InterlockedDecrement, KeInitializeEvent, __ThreadAlert, __ThreadWake, KeSetEvent, wrapLONG_zero, wrapLONG_one, hirql, halloc, hcreate, href]; rfl)]
  rw [ThreadCreate_run_step _ _ _ rfl (by simp [ThreadCreate_step, boot, ASSERT, Sys.free, InterlockedDecrement, KeInitializeEvent, __ThreadAlert, __ThreadWake, KeSetEvent, wrapLONG_zero, wrapLONG_one, hirql, halloc, hcreate, href]; rfl)]
  rw [ThreadCreate_run_step _ _ _ rfl (by simp [ThreadCreate_step, boot, ASSERT, Sys.free, InterlockedDecrement, KeInitializeEvent, __ThreadAlert, __ThreadWake, KeSetEvent, wrapLONG_zero, wrapLONG_one, hirql, halloc, hcreate, href]; rfl)]
  rw [ThreadCreate_run_step _ _ _ rfl (by simp [ThreadCreate_step, boot, ASSERT, Sys.free, InterlockedDecrement, KeInitializeEvent, __ThreadAlert, __ThreadWake, KeSetEvent, wrapLONG_zero, wrapLONG_one, hirql, halloc, hcreate, href]; rfl)]
  rw [ThreadCreate_run_step _ _ _ rfl (by simp [ThreadCreate_step, boot, ASSERT, Sys.free, InterlockedDecrement, KeInitializeEvent, __ThreadAlert, __ThreadWake, KeSetEvent, wrapLONG_zero, wrapLONG_one, hirql, halloc, hcreate, href]; rfl)]
  rw [ThreadCreate_run_step _ _ _ rfl (by simp [ThreadCreate_step, boot, ASSERT, Sys.free, InterlockedDecrement, KeInitializeEvent, __ThreadAlert, __ThreadWake, KeSetEvent, wrapLONG_zero, wrapLONG_one, hirql, halloc, hcreate, href]; rfl)]
  rw [ThreadCreate_run_ret _ _ _ rfl]
  simp [boot]

theorem ThreadCreate_success (env : Env) (F C : Nat) (hirql : env.irql = PASSIVE_LEVEL)
    (halloc : env.allocResult ≠ NULL) (hcreate : NT_SUCCESS env.createStatus = true)
    (href : NT_SUCCESS env.refStatus = true) :
    ThreadCreate env F C = some { boot env F C with
      out := env.allocResult, status := env.refStatus, Handle := env.handle,
      cpc := .ret STATUS_SUCCESS, wpc := .L109,
      pool := some { Function := F, Context := C, Alerted := false, References := 2,
                     Event := false, Thread := env.kthread },
      closed := [env.handle] } := by
  unfold ThreadCreate
  rw [ThreadCreate_run_step _ _ _ rfl (by simp [ThreadCreate_step, boot, ASSERT, Sys.free, InterlockedDecrement, KeInitializeEvent, __ThreadAlert, __ThreadWake, KeSetEvent, wrapLONG_zero, wrapLONG_one, hirql, halloc, hcreate, href]; rfl)]
  rw [ThreadCreate_run_step _ _ _ rfl (by simp [ThreadCreate_step, boot, ASSERT, Sys.free, InterlockedDecrement, KeInitializeEvent, __ThreadAlert, __ThreadWake, KeSetEvent, wrapLONG_zero, wrapLONG_one, hirql, halloc, hcreate, href]; rfl)]
  rw [ThreadCreate_run_step _ _ _ rfl (by simp [ThreadCreate_step, boot, ASSERT, Sys.free, InterlockedDecrement, KeInitializeEvent, __ThreadAlert, __ThreadWake, KeSetEvent, wrapLONG_zero, wrapLONG_one, hirql, halloc, hcreate, href]; rfl)]
  rw [ThreadCreate_run_step _ _ _ rfl (by simp [ThreadCreate_step, boot, ASSERT, Sys.free, InterlockedDecrement, KeInitializeEvent, __ThreadAlert, __ThreadWake, KeSetEvent, wrapLONG_zero, wrapLONG_one, hirql, halloc, hcreate, href]; rfl)]
  rw [ThreadCreate_run_step _ _ _ rfl (by simp [ThreadCreate_step, boot, ASSERT, Sys.free, InterlockedDecrement, KeInitializeEvent, __ThreadAlert, __ThreadWake, KeSetEvent, wrapLONG_zero, wrapLONG_one, hirql, halloc, hcreate, href]; rfl)]
  rw [ThreadCreate_run_step _ _ _ rfl (by simp [ThreadCreate_step, boot, ASSERT, Sys.free, InterlockedDecrement, KeInitializeEvent, __ThreadAlert, __ThreadWake, KeSetEvent, wrapLONG_zero, wrapLONG_one, hirql, halloc, hcreate, href]; rfl)]
  rw [ThreadCreate_run_step _ _ _ rfl (by simp [ThreadCreate_step, boot, ASSERT, Sys.free, InterlockedDecrement, KeInitializeEvent, __ThreadAlert, __ThreadWake, KeSetEvent, wrapLONG_zero, wrapLONG_one, hirql, halloc, hcreate, href]; rfl)]
  rw [ThreadCreate_run_step _ _ _ rfl (by simp [ThreadCreate_step, boot, ASSERT, Sys.free, InterlockedDecrement, KeInitializeEvent, __ThreadAlert, __ThreadWake, KeSetEvent, wrapLONG_zero, wrapLONG_one, hirql, halloc, hcreate, href]; rfl)]
  rw [ThreadCreate_run_step _ _ _ rfl (by simp [ThreadCreate_step, boot, ASSERT, Sys.free, InterlockedDecrement, KeInitializeEvent, __ThreadAlert, __ThreadWake, KeSetEvent, wrapLONG_zero, wrapLONG_one, hirql, halloc, hcreate, href]; rfl)]
  rw [ThreadCreate_run_step _ _ _ rfl (by simp [ThreadCreate_step, boot, ASSERT, Sys.free, InterlockedDecrement, KeInitializeEvent, __ThreadAlert, __ThreadWake, KeSetEvent, wrapLONG_zero, wrapLONG_one, hirql, halloc, hcreate, href]; rfl)]
  rw [ThreadCreate_run_ret _ _ _ rfl]
  simp [boot]

theorem Inv_reach {env : Env} {F C : Nat} {ls : List Label} {s : Sys}
    (h : run ls (boot env F C) = some s) :
    Inv s ∧ s.env = env ∧ s.Function = F ∧ s.Context = C := by
  have h1 := Inv_run (Inv_boot env F C) h
  have h2 := run_env h
  exact ⟨h1, h2⟩

theorem ThreadCreate_reach {env : Env} {F C : Nat} {s0 : Sys}
    (h : ThreadCreate env F C = some s0) : ∃ ls, run ls (boot env F C) = some s0 :=
  ThreadCreate_run_reach h

theorem reach_after {env : Env} {F C : Nat} {s0 s : Sys} {ls : List Label}
    (h0 : ThreadCreate env F C = some s0) (h : run ls s0 = some s) :
    ∃ ls', run ls' (boot env F C) = some s := by
  obtain ⟨l0, hl0⟩ := ThreadCreate_reach h0
  exact ⟨l0 ++ ls, by simp [run_append, hl0, h]⟩

theorem Books_frees {s : Sys} (hb : Books s) :
    s.frees = [] ∨ ∃ a, s.frees = [⟨a, 0⟩] := by
  unfold Books at hb
  cases hc : cDone s <;> cases hw : wDone s <;> simp only [hc, hw] at hb
  · exact Or.inl hb.2
  · exact Or.inl hb.2.1
  · exact Or.inl hb.2.1
  · rcases hb with ⟨_, _, h | h⟩ | ⟨_, _, h | h⟩
    · exact Or.inl h.2
    · exact Or.inr ⟨_, h.2⟩
    · exact Or.inl h.2
    · exact Or.inr ⟨_, h.2⟩

theorem frees_bound {s : Sys} (hb : Books s) :
    s.frees.length ≤ 1 ∧ ∀ f ∈ s.frees, f.observed = 0 := by
  rcases Books_frees hb with h | ⟨a, h⟩ <;> simp [h]

theorem ThreadCreate_irql (env : Env) (F C : Nat) (hirql : env.irql ≠ PASSIVE_LEVEL) :
    ThreadCreate env F C = none := by
  unfold ThreadCreate
  rw [ThreadCreate_run_step _ _ _ rfl (by simp [ThreadCreate_step, boot, ASSERT, hirql]; rfl)]
  simp [ThreadCreate_run, step]

/-- A return of `STATUS_SUCCESS` from `ThreadCreate` means that every platform call
succeeded. -/
theorem ThreadCreate_success_inv {env : Env} {F C : Nat} {s0 : Sys}
    (h0 : ThreadCreate env F C = some s0) (hok : s0.cpc = .ret STATUS_SUCCESS) :
    env.irql = PASSIVE_LEVEL ∧ env.allocResult ≠ NULL ∧
    NT_SUCCESS env.createStatus = true ∧ NT_SUCCESS env.refStatus = true := by
  obtain ⟨l0, hl0⟩ := ThreadCreate_reach h0
  obtain ⟨⟨hc, _⟩, he, _, _⟩ := Inv_reach hl0
  have hirql : env.irql = PASSIVE_LEVEL := by
    by_contra hne
    rw [ThreadCreate_irql env F C hne] at h0
    simp at h0
  unfold CreatorOK at hc
  rw [hok] at hc
  simp [NT_SUCCESS_STATUS_SUCCESS, he] at hc
  exact ⟨hirql, by tauto, by tauto, by tauto⟩

theorem joined_state {s : Sys} (hi : Inv s) (hw : exited s.wpc = true) (hj : s.jpc = .done) :
    s.frees.length = 1 ∧ s.References = some 0 := by
  obtain ⟨env, F, C, out, status, Handle, pool, cpc, wpc, jpc, fault, decs, frees, waits, closed⟩ := s
  obtain ⟨hc, hb, hr, ha, hz, hfl, hwt, hjl, hsf, hnf⟩ := hi
  simp only at hj
  subst hj
  cases cpc <;> simp [CreatorOK] at hc
  obtain ⟨hnt, hc⟩ := hc
  simp [hnt] at hc
  rcases pool with _ | t
  · simp at hc
  · cases wpc <;> simp [exited] at hw <;>
      simp [Books, cDone, wDone, cWho, wWho, cObs, wObs, hnt, initialised, decremented] at hb hr hjl <;>
      simp [hjl] at hb hr <;> simp [Sys.References, hr, hb]

/-- C1: starting from the state that a successful `ThreadCreate` leaves (`References` is 2
and nothing has been freed), under every schedule of the worker thread, the joining
thread and handle calls: the worker has been freed at most once; every free was made
by a thread whose own decrement returned 0; `ThreadJoin` gets past its wait only once
the worker thread has terminated; and once both the exit step of `ThreadFunction` and
`ThreadJoin` have been taken the worker has been freed exactly once and `References`
is 0.  The last conjunct states the same for the schedules in which the worker thread
already runs while `ThreadCreate` has not yet returned. -/
theorem C1_lifecycle_frees_exactly_once (env : Env) (F C : Nat) (s0 s : Sys) (ls : List Label)
    (h0 : ThreadCreate env F C = some s0) (hok : s0.cpc = .ret STATUS_SUCCESS)
    (h : run ls s0 = some s) :
    (s0.References = some 2 ∧ s0.frees = []) ∧
    s.frees.length ≤ 1 ∧
    (∀ f ∈ s.frees, f.observed = 0) ∧
    (waited s.jpc = true → ∃ st, s.wpc = .terminated st) ∧
    (exited s.wpc = true → s.jpc = .done → s.frees.length = 1 ∧ s.References = some 0) ∧
    (∀ ls1 s1, run ls1 (boot env F C) = some s1 →
      s1.frees.length ≤ 1 ∧ (∀ f ∈ s1.frees, f.observed = 0) ∧
      (waited s1.jpc = true → ∃ st, s1.wpc = .terminated st) ∧
      (exited s1.wpc = true → s1.jpc = .done →
        s1.frees.length = 1 ∧ s1.References = some 0)) := by
  obtain ⟨hirql, halloc, hcreate, href⟩ := ThreadCreate_success_inv h0 hok
  obtain ⟨ls', hls'⟩ := reach_after h0 h
  obtain ⟨hi, -⟩ := Inv_reach hls'
  have hfb := frees_bound hi.2.books
  rw [ThreadCreate_success env F C hirql halloc hcreate href] at h0
  cases h0
  refine ⟨⟨rfl, rfl⟩, hfb.1, hfb.2, hi.2.after, joined_state hi, ?_⟩
  intro ls1 s1 h1
  obtain ⟨hi1, -⟩ := Inv_reach h1
  have hfb1 := frees_bound hi1.2.books
  exact ⟨hfb1.1, hfb1.2, hi1.2.after, joined_state hi1⟩

/-- Witness of C1: in `envOK` the worker runs to termination and is then joined. -/
theorem C1_lifecycle_frees_exactly_once_witness :
    ThreadCreate envOK 1 2 = some createdOK ∧ createdOK.cpc = .ret STATUS_SUCCESS ∧
    run schedJoin createdOK = some joinedOK ∧
    joinedOK.frees.length = 1 ∧ joinedOK.References = some 0 :=
  ⟨rfl, rfl, rfl,
   (C1_lifecycle_frees_exactly_once envOK 1 2 createdOK joinedOK schedJoin rfl rfl
     rfl).2.2.2.2.1 rfl rfl⟩

/-- C2, counterexample: `ThreadCreate` succeeds, the worker function returns status 0 at
once, `ThreadJoin` is never called and `ThreadFunction` runs to the termination of the
thread; the worker has not been freed and `References` is 1. -/
theorem C2_counterexample :
    ThreadCreate envOK 1 2 = some createdOK ∧ createdOK.cpc = .ret STATUS_SUCCESS ∧
    envOK.invoke 1 2 = 0 ∧ run schedExit createdOK = some exitedOK ∧
    exitedOK.wpc = .terminated 0 ∧ exitedOK.jpc = .idle ∧
    ¬ (exitedOK.frees.length = 1) ∧ exitedOK.frees = [] ∧ exitedOK.References = some 1 :=
  ⟨rfl, rfl, rfl, rfl, rfl, rfl, by decide, rfl, rfl⟩

theorem unjoined_state {s : Sys} {st : Int} (hi : Inv s) (hok : s.cpc = .ret STATUS_SUCCESS)
    (hj : s.jpc = .idle) (hw : s.wpc = .terminated st) :
    s.frees = [] ∧ s.References = some 1 ∧ s.decs = [⟨.worker, 2, 1⟩] := by
  obtain ⟨env, F, C, out, status, Handle, pool, cpc, wpc, jpc, fault, decs, frees, waits, closed⟩ := s
  obtain ⟨hc, hb, hr, ha, hz, hfl, hwt, hjl, hsf, hnf⟩ := hi
  simp only at hj hw hok
  subst hj hw hok
  simp [CreatorOK, NT_SUCCESS_STATUS_SUCCESS] at hc
  rcases pool with _ | t
  · simp at hc
  · simp [Books, cDone, wDone, cWho, wWho, cObs, wObs, NT_SUCCESS_STATUS_SUCCESS, initialised] at hb hr
    simp [hb] at hr
    simp [Sys.References, hr, hb]

theorem step_ret {l : Label} {s s' : Sys} {st : Int} (hs : s.cpc = .ret st)
    (h : step l s = some s') : s'.cpc = .ret st := by
  obtain ⟨env, F, C, out, status, Handle, pool, cpc, wpc, jpc, fault, decs, frees, waits, closed⟩ := s
  simp only at hs
  subst hs
  unfold step at h
  split at h
  · simp at h
  · cases l
    · simp [ThreadCreate_step] at h
    · cases wpc <;> cases pool <;> simp [ThreadFunction_step, Sys.free] at h <;>
        (try split at h) <;> subst h <;> simp
    · cases jpc <;> cases pool <;>
        simp only [join_step, ThreadJoin_step, ASSERT, Sys.free, Option.map, Option.bind] at h <;>
        (repeat' split at h) <;> simp at h <;> (try (obtain ⟨-, h⟩ := h)) <;>
        simp
    · cases pool <;> simp [call_step] at h
      obtain ⟨hw, hf, h⟩ := h
      subst h; simp
    · cases pool <;> simp [call_step] at h
      obtain ⟨hw, hf, h⟩ := h
      subst h; simp

theorem run_ret {ls : List Label} {s s' : Sys} {st : Int} (hs : s.cpc = .ret st)
    (h : run ls s = some s') : s'.cpc = .ret st := by
  induction ls generalizing s with
  | nil =>
    simp [run] at h
    subst h; exact hs
  | cons l ls ih =>
    simp only [run] at h
    cases hl : step l s with
    | none => simp [hl] at h
    | some m =>
      rw [hl] at h
      exact ih (step_ret hs hl) h

/-- C2, amended: for a worker produced by a successful `ThreadCreate` on which
`ThreadJoin` has not been called, once `ThreadFunction` has run to the termination of
the thread (whatever status the worker function returned) the only decrement made is
the one of `ThreadFunction`, from 2 to 1, `References` is 1 and the worker has not been
freed. -/
theorem C2_unjoined_worker_is_not_freed (env : Env) (F C : Nat) (s0 s : Sys)
    (ls : List Label) (st : Int)
    (h0 : ThreadCreate env F C = some s0) (hok : s0.cpc = .ret STATUS_SUCCESS)
    (h : run ls s0 = some s) (hj : s.jpc = .idle) (hw : s.wpc = .terminated st) :
    s.frees = [] ∧ s.References = some 1 ∧ s.decs = [⟨.worker, 2, 1⟩] := by
  obtain ⟨ls', hls'⟩ := reach_after h0 h
  exact unjoined_state (Inv_reach hls').1 (run_ret hok h) hj hw

/-- Witness of C2, amended: the state after `schedExit` in `envOK`. -/
theorem C2_unjoined_worker_is_not_freed_witness :
    exitedOK.frees = [] ∧ exitedOK.References = some 1 ∧ exitedOK.decs = [⟨.worker, 2, 1⟩] :=
  C2_unjoined_worker_is_not_freed envOK 1 2 createdOK exitedOK schedExit 0 rfl rfl rfl rfl rfl

theorem who_not_joiner {s : Sys} (hb : Books s) (hd : decremented s.jpc = false) :
    ∀ d ∈ s.decs, d.who ≠ .joiner := by
  have h1 : cWho s = .creator := by
    unfold cWho
    cases hj : s.jpc <;> simp [hj, decremented] at hd ⊢
  have h2 : wWho s ≠ .joiner := by
    unfold wWho
    cases s.wpc <;> simp
  unfold Books at hb
  rw [h1] at hb
  split at hb
  · simp [hb.1]
  · simp [hb.1]
  · simp [hb.1, h2]
  · rcases hb with hb | hb <;> simp [hb.1, h2]

/-- C3: for every schedule from the entry of `ThreadCreate`, the value that the
decrement of `ThreadJoin` returned into its local `References` is 0, every decrement
recorded for the joining thread took `References` from 1 to 0, the assertion of line
223 has not failed, and `ThreadJoin` is past its wait only if the worker thread has
terminated. -/
theorem C3_join_decrement_returns_zero (env : Env) (F C : Nat) (ls : List Label) (s : Sys)
    (h : run ls (boot env F C) = some s) :
    (∀ r, (s.jpc = .L223 r ∨ s.jpc = .L225 r) → r = 0) ∧
    (∀ d ∈ s.decs, d.who = .joiner → d.before = 1 ∧ d.after = 0) ∧
    s.fault ≠ some .L223 ∧
    (waited s.jpc = true → ∃ st, s.wpc = .terminated st) := by
  obtain ⟨⟨hc, hl⟩, -⟩ := Inv_reach h
  refine ⟨hl.zero, ?_, hl.nofault, hl.after⟩
  intro d hd hwho
  cases hdec : decremented s.jpc
  · exact absurd hwho (who_not_joiner hl.books hdec d hd)
  · have := hl.last hdec
    rw [this] at hd
    simp at hd
    rcases hd with rfl | rfl
    · simp at hwho
    · simp

/-- Witness of C3: in `envOK`, where the caller of `ThreadJoin` is not the worker
thread, `schedJoinDec` reaches line 223 with the decrement having returned 0. -/
theorem C3_join_decrement_returns_zero_witness :
    run schedJoinDec (boot envOK 1 2) = some joinDecOK ∧
    envOK.joinCaller ≠ envOK.kthread ∧ joinDecOK.jpc = .L223 0 ∧
    joinDecOK.fault ≠ some .L223 :=
  ⟨rfl, by decide, rfl,
   (C3_join_decrement_returns_zero envOK 1 2 schedJoinDec joinDecOK rfl).2.2.1⟩

theorem fail2_state {s : Sys} {st : Int} (hi : Inv s) (halloc : s.env.allocResult ≠ NULL)
    (hcreate : NT_SUCCESS s.env.createStatus = false) (hret : s.cpc = .ret st) :
    st = s.env.createStatus ∧ s.out = NULL ∧ s.wpc = .absent ∧
    s.decs = [⟨.creator, 2, 1⟩, ⟨.creator, 1, 0⟩] ∧ s.frees = [⟨.creator, 0⟩] ∧
    s.References = some 0 ∧ s.closed = [] := by
  obtain ⟨env, F, C, out, status, Handle, pool, cpc, wpc, jpc, fault, decs, frees, waits, closed⟩ := s
  obtain ⟨hc, hb, hr, ha, hz, hfl, hwt, hjl, hsf, hnf⟩ := hi
  simp only at hret halloc hcreate
  subst hret
  simp [CreatorOK, hcreate, halloc, failTail] at hc
  obtain ⟨hj, hnt, hout, hp, hw, hst, hcl⟩ := hc
  subst hw
  rcases pool with _ | t
  · simp at hp
  · cases jpc <;> simp [hnt] at hj
    simp [Books, cDone, wDone, cWho, wWho, cObs, wObs, hnt, initialised] at hb hr
    simp [hb] at hr
    simp [hb, hr, hst, hout, hcl, Sys.References]

/-- C4: when the allocation succeeds and `PsCreateSystemThread` fails with status
`createStatus`, `ThreadCreate` (entered at `PASSIVE_LEVEL`) returns that status with
`*Thread` set to `NULL`; the decrement of line 153 takes `References` from 2 to 1 and
the decrement of line 179 takes it from 1 to 0; the worker is freed exactly once and no
thread exists.  The same holds in every state, under every schedule, in which
`ThreadCreate` has returned. -/
theorem C4_thread_creation_failure (env : Env) (F C : Nat)
    (hirql : env.irql = PASSIVE_LEVEL) (halloc : env.allocResult ≠ NULL)
    (hcreate : NT_SUCCESS env.createStatus = false) :
    (∃ s0, ThreadCreate env F C = some s0 ∧ s0.cpc = .ret env.createStatus ∧
      s0.out = NULL ∧ s0.decs = [⟨.creator, 2, 1⟩, ⟨.creator, 1, 0⟩] ∧
      s0.frees = [⟨.creator, 0⟩] ∧ s0.References = some 0 ∧ s0.wpc = .absent) ∧
    (∀ ls s st, run ls (boot env F C) = some s → s.cpc = .ret st →
      st = env.createStatus ∧ s.out = NULL ∧
      s.decs = [⟨.creator, 2, 1⟩, ⟨.creator, 1, 0⟩] ∧ s.frees = [⟨.creator, 0⟩]) ∧
    (∀ ls s, run ls (boot env F C) = some s → s.frees.length ≤ 1) := by
  refine ⟨⟨_, ThreadCreate_fail2 env F C hirql halloc hcreate, rfl, rfl, rfl, rfl, rfl, rfl⟩,
    ?_, ?_⟩
  · intro ls s st h hret
    obtain ⟨hi, he, -⟩ := Inv_reach h
    have := fail2_state hi (he ▸ halloc) (he ▸ hcreate) hret
    rw [he] at this
    exact ⟨this.1, this.2.1, this.2.2.2.1, this.2.2.2.2.1⟩
  · intro ls s h
    exact (frees_bound (Inv_reach h).1.2.books).1

/-- Witness of C4: `PsCreateSystemThread` fails with `STATUS_NO_MEMORY`. -/
theorem C4_thread_creation_failure_witness :
    ∃ s0, ThreadCreate envNoThread 1 2 = some s0 ∧ s0.cpc = .ret STATUS_NO_MEMORY ∧
      s0.out = NULL ∧ s0.decs = [⟨.creator, 2, 1⟩, ⟨.creator, 1, 0⟩] ∧
      s0.frees = [⟨.creator, 0⟩] ∧ s0.References = some 0 ∧ s0.wpc = .absent :=
  (C4_thread_creation_failure envNoThread 1 2 rfl (by decide) (by decide)).1

theorem fail1_state {s : Sys} (hi : Inv s) (halloc : s.env.allocResult = NULL) :
    s.pool = none ∧ s.wpc = .absent ∧ s.decs = [] ∧ s.frees = [] ∧ s.closed = [] ∧
    s.waits = 0 ∧ ∀ st, s.cpc = .ret st → st = STATUS_NO_MEMORY ∧ s.out = NULL := by
  obtain ⟨env, F, C, out, status, Handle, pool, cpc, wpc, jpc, fault, decs, frees, waits, closed⟩ := s
  obtain ⟨hc, hb, hr, ha, hz, hfl, hwt, hjl, hsf, hnf⟩ := hi
  simp only at halloc
  cases cpc <;> simp [CreatorOK, halloc, failTail] at hc <;>
    (try (obtain ⟨hj, hc⟩ := hc)) <;>
    (try subst hj) <;>
    (try casesm* _ ∧ _) <;> (try subst_vars) <;>
    simp [Books, cDone, wDone, issued, NT_SUCCESS_STATUS_NO_MEMORY] at hb hwt <;>
    simp_all

/-- C9: when `__ThreadAllocate` returns `NULL`, `ThreadCreate` (entered at
`PASSIVE_LEVEL`) returns `STATUS_NO_MEMORY` with `*Thread` equal to `NULL`, and in no
state of any schedule is there an allocated block (so no field is initialised), a
worker thread, a decrement, a free, a closed handle or a wait. -/
theorem C9_allocation_failure (env : Env) (F C : Nat)
    (hirql : env.irql = PASSIVE_LEVEL) (halloc : env.allocResult = NULL) :
    (∃ s0, ThreadCreate env F C = some s0 ∧ s0.cpc = .ret STATUS_NO_MEMORY ∧
      s0.out = NULL ∧ s0.pool = none ∧ s0.wpc = .absent ∧ s0.decs = [] ∧ s0.frees = [] ∧
      s0.closed = [] ∧ s0.waits = 0) ∧
    (∀ ls s, run ls (boot env F C) = some s →
      s.pool = none ∧ s.wpc = .absent ∧ s.decs = [] ∧ s.frees = [] ∧ s.closed = [] ∧
      s.waits = 0 ∧ ∀ st, s.cpc = .ret st → st = STATUS_NO_MEMORY ∧ s.out = NULL) := by
  refine ⟨⟨_, ThreadCreate_fail1 env F C hirql halloc, rfl, rfl, rfl, rfl, rfl, rfl, rfl, rfl⟩,
    ?_⟩
  intro ls s h
  obtain ⟨hi, he, -⟩ := Inv_reach h
  exact fail1_state hi (he ▸ halloc)

/-- Witness of C9: the allocation returns `NULL`. -/
theorem C9_allocation_failure_witness :
    ∃ s0, ThreadCreate envNoMemory 1 2 = some s0 ∧ s0.cpc = .ret STATUS_NO_MEMORY ∧
      s0.out = NULL ∧ s0.pool = none ∧ s0.wpc = .absent ∧ s0.decs = [] ∧ s0.frees = [] ∧
      s0.closed = [] ∧ s0.waits = 0 :=
  (C9_allocation_failure envNoMemory 1 2 rfl rfl).1

theorem start_state {s s' : Sys} (hi : Inv s) (hw : s.wpc = .absent)
    (h : step .creator s = some s') (hw' : s'.wpc ≠ .absent) :
    s'.wpc = .L109 ∧
    s'.pool = some ⟨s.Function, s.Context, false, false, 2, s.env.raw.Thread⟩ := by
  obtain ⟨env, F, C, out, status, Handle, pool, cpc, wpc, jpc, fault, decs, frees, waits, closed⟩ := s
  obtain ⟨hc, -⟩ := hi
  simp only at hw
  subst hw
  unfold step at h
  split at h
  · simp at h
  · cases cpc <;> cases pool <;> simp [ThreadCreate_step, ASSERT, Sys.free] at h <;>
      (try split at h) <;> subst h <;> (try (simp at hw'; done))
    all_goals (simp [CreatorOK] at hc <;> simp [hc])

theorem run_start (env : Env) (F C : Nat) (hirql : env.irql = PASSIVE_LEVEL)
    (halloc : env.allocResult ≠ NULL) (hcreate : NT_SUCCESS env.createStatus = true) :
    run (List.replicate 5 Label.creator) (boot env F C) =
      some { boot env F C with
        out := env.allocResult, status := env.createStatus, Handle := env.handle,
        cpc := .L152, wpc := .L109,
        pool := some ⟨F, C, false, false, 2, env.raw.Thread⟩ } := by
  simp [List.replicate, run, step, ThreadCreate_step, boot, ASSERT, KeInitializeEvent, hirql,
    halloc, hcreate]

theorem success_state {s : Sys} {st : Int} (hi : Inv s) (halloc : s.env.allocResult ≠ NULL)
    (hcreate : NT_SUCCESS s.env.createStatus = true)
    (href : NT_SUCCESS s.env.refStatus = true) (hret : s.cpc = .ret st) :
    st = STATUS_SUCCESS ∧ s.out = s.env.allocResult ∧
    ∃ t, s.pool = some t ∧ t.Function = s.Function ∧ t.Context = s.Context ∧
      t.Thread = s.env.kthread := by
  obtain ⟨env, F, C, out, status, Handle, pool, cpc, wpc, jpc, fault, decs, frees, waits, closed⟩ := s
  obtain ⟨hc, hb, hr, ha, hz, hfl, hwt, hjl, hsf, hnf⟩ := hi
  simp only at hret href halloc hcreate
  subst hret
  rcases pool with _ | t
  · simp [CreatorOK, failTail, href, hcreate, halloc] at hc
  · clear hb hr ha hz hwt hjl hsf hnf
    simp [CreatorOK, failTail, href, hcreate, halloc, threadOK] at hc
    simp [initialised] at hfl
    obtain ⟨-, -, h1, -, h2, -, h3⟩ := hc
    simp [h1, h2, h3, hfl]

/-- C10: when the allocation, `PsCreateSystemThread` and `ObReferenceObjectByHandle`
all succeed, `ThreadCreate` (entered at `PASSIVE_LEVEL`) returns `STATUS_SUCCESS` with
a worker that is not `NULL`; the thread is started by the fifth statement executed,
and whenever a statement of `ThreadCreate` starts the thread, the worker at that moment
has `Alerted = FALSE`, `References = 2`, the event not signalled, and `Function` and
`Context` equal to the arguments.  Under every schedule the status returned is
`STATUS_SUCCESS` and `Function` and `Context` still equal the arguments. -/
theorem C10_successful_creation (env : Env) (F C : Nat)
    (hirql : env.irql = PASSIVE_LEVEL) (halloc : env.allocResult ≠ NULL)
    (hcreate : NT_SUCCESS env.createStatus = true)
    (href : NT_SUCCESS env.refStatus = true) :
    (∃ s0, ThreadCreate env F C = some s0 ∧ s0.cpc = .ret STATUS_SUCCESS ∧
      s0.out = env.allocResult ∧ s0.out ≠ NULL ∧
      s0.pool = some ⟨F, C, false, false, 2, env.kthread⟩) ∧
    (∃ s5, run (List.replicate 5 Label.creator) (boot env F C) = some s5 ∧
      s5.wpc = .L109 ∧ s5.pool = some ⟨F, C, false, false, 2, env.raw.Thread⟩) ∧
    (∀ ls s s', run ls (boot env F C) = some s → s.wpc = .absent →
      step .creator s = some s' → s'.wpc ≠ .absent →
      s'.wpc = .L109 ∧ s'.pool = some ⟨F, C, false, false, 2, env.raw.Thread⟩) ∧
    (∀ ls s st, run ls (boot env F C) = some s → s.cpc = .ret st →
      st = STATUS_SUCCESS ∧ s.out = env.allocResult ∧
      ∃ t, s.pool = some t ∧ t.Function = F ∧ t.Context = C) := by
  refine ⟨⟨_, ThreadCreate_success env F C hirql halloc hcreate href, rfl, rfl, halloc, rfl⟩,
    ?_, ?_, ?_⟩
  · exact ⟨_, run_start env F C hirql halloc hcreate, rfl, rfl⟩
  · intro ls s s' h hw hs hw'
    obtain ⟨hi, he, hF, hC⟩ := Inv_reach h
    have := start_state hi hw hs hw'
    rw [he, hF, hC] at this
    exact this
  · intro ls s st h hret
    obtain ⟨hi, he, hF, hC⟩ := Inv_reach h
    obtain ⟨h1, h2, t, h3, h4, h5, -⟩ :=
      success_state hi (he ▸ halloc) (he ▸ hcreate) (he ▸ href) hret
    exact ⟨h1, he ▸ h2, t, h3, hF ▸ h4, hC ▸ h5⟩

/-- Witness of C10: every platform call succeeds. -/
theorem C10_successful_creation_witness :
    ∃ s0, ThreadCreate envOK 1 2 = some s0 ∧ s0.cpc = .ret STATUS_SUCCESS ∧
      s0.out = envOK.allocResult ∧ s0.out ≠ NULL ∧
      s0.pool = some ⟨1, 2, false, false, 2, envOK.kthread⟩ :=
  (C10_successful_creation envOK 1 2 rfl (by decide) (by decide) (by decide)).1

theorem fail3_state {s : Sys} {st : Int} (hi : Inv s) (halloc : s.env.allocResult ≠ NULL)
    (hcreate : NT_SUCCESS s.env.createStatus = true)
    (href : NT_SUCCESS s.env.refStatus = false) (hret : s.cpc = .ret st) :
    st = s.env.refStatus ∧ s.out = NULL ∧ s.closed = [s.env.handle] ∧
    (∃ t, s.pool = some t ∧ t.Alerted = true ∧ t.Event = true) ∧
    (∃ d ∈ s.decs, d.who = .creator) ∧
    (exited s.wpc = true →
      (s.decs = [⟨.creator, 2, 1⟩, ⟨.worker, 1, 0⟩] ∧ s.frees = [⟨.worker, 0⟩]) ∨
      (s.decs = [⟨.worker, 2, 1⟩, ⟨.creator, 1, 0⟩] ∧ s.frees = [⟨.creator, 0⟩])) := by
  obtain ⟨env, F, C, out, status, Handle, pool, cpc, wpc, jpc, fault, decs, frees, waits, closed⟩ := s
  obtain ⟨hc, hb, hr, ha, hz, hfl, hwt, hjl, hsf, hnf⟩ := hi
  simp only at hret href halloc hcreate
  subst hret
  clear hr ha hz hfl hwt hjl hsf hnf
  rcases pool with _ | t
  · simp [CreatorOK, failTail, href, hcreate, halloc] at hc
  · simp [CreatorOK, failTail, href, hcreate, halloc, alertedOK] at hc
    obtain ⟨hj, hnt, hout, hw, hst, hcl, hal, hev⟩ := hc
    simp [hnt] at hj
    subst hj
    refine ⟨hst, hout, hcl, ⟨t, rfl, hal, hev⟩, ?_, ?_⟩
    · cases wpc <;> simp at hw <;>
        simp [Books, cDone, wDone, cWho, wWho, cObs, wObs, hnt] at hb <;>
        (try (rcases hb with hb | hb)) <;> simp_all
    · intro hx
      cases wpc <;> simp [exited] at hx <;>
        simp [Books, cDone, wDone, cWho, wWho, cObs, wObs, hnt] at hb <;>
        simpa using hb

theorem run_cons_step {l : Label} {ls : List Label} {s m : Sys} (h : step l s = some m) :
    run (l :: ls) s = run ls m := by
  simp [run, h]

theorem fail3_creator_first (env : Env) (F C : Nat) (hirql : env.irql = PASSIVE_LEVEL)
    (halloc : env.allocResult ≠ NULL) (hcreate : NT_SUCCESS env.createStatus = true)
    (href : NT_SUCCESS env.refStatus = false) :
    ∃ s, run schedCreatorFirst (boot env F C) = some s ∧ s.cpc = .ret env.refStatus ∧
      exited s.wpc = true ∧
      s.decs = [⟨.creator, 2, 1⟩, ⟨.worker, 1, 0⟩] ∧ s.frees = [⟨.worker, 0⟩] := by
  unfold schedCreatorFirst
  rw [run_cons_step (by simp [step, ThreadCreate_step, ThreadFunction_step, boot, ASSERT, Sys.free, InterlockedDecrement, KeInitializeEvent, __ThreadAlert, __ThreadWake, KeSetEvent, wrapLONG_zero, wrapLONG_one, hirql, halloc, hcreate, href]; rfl)]
  rw [run_cons_step (by simp [step, ThreadCreate_step, ThreadFunction_step, boot, ASSERT, Sys.free, InterlockedDecrement, KeInitializeEvent, __ThreadAlert, __ThreadWake, KeSetEvent, wrapLONG_zero, wrapLONG_one, hirql, halloc, hcreate, href]; rfl)]
  rw [run_cons_step (by simp [step, ThreadCreate_step, ThreadFunction_step, boot, ASSERT, Sys.free, InterlockedDecrement, KeInitializeEvent, __ThreadAlert, __ThreadWake, KeSetEvent, wrapLONG_zero, wrapLONG_one, hirql, halloc, hcreate, href]; rfl)]
  rw [run_cons_step (by simp [step, ThreadCreate_step, ThreadFunction_step, boot, ASSERT, Sys.free, InterlockedDecrement, KeInitializeEvent, __ThreadAlert, __ThreadWake, KeSetEvent, wrapLONG_zero, wrapLONG_one, hirql, halloc, hcreate, href]; rfl)]
  rw [run_cons_step (by simp [step, ThreadCreate_step, ThreadFunction_step, boot, ASSERT, Sys.free, InterlockedDecrement, KeInitializeEvent, __ThreadAlert, __ThreadWake, KeSetEvent, wrapLONG_zero, wrapLONG_one, hirql, halloc, hcreate, href]; rfl)]
  rw [run_cons_step (by simp [step, ThreadCreate_step, ThreadFunction_step, boot, ASSERT, Sys.free, InterlockedDecrement, KeInitializeEvent, __ThreadAlert, __ThreadWake, KeSetEvent, wrapLONG_zero, wrapLONG_one, hirql, halloc, hcreate, href]; rfl)]
  rw [run_cons_step (by simp [step, ThreadCreate_step, ThreadFunction_step, boot, ASSERT, Sys.free, InterlockedDecrement, KeInitializeEvent, __ThreadAlert, __ThreadWake, KeSetEvent, wrapLONG_zero, wrapLONG_one, hirql, halloc, hcreate, href]; rfl)]
  rw [run_cons_step (by simp [step, ThreadCreate_step, ThreadFunction_step, boot, ASSERT, Sys.free, InterlockedDecrement, KeInitializeEvent, __ThreadAlert, __ThreadWake, KeSetEvent, wrapLONG_zero, wrapLONG_one, hirql, halloc, hcreate, href]; rfl)]
  rw [run_cons_step (by simp [step, ThreadCreate_step, ThreadFunction_step, boot, ASSERT, Sys.free, InterlockedDecrement, KeInitializeEvent, __ThreadAlert, __ThreadWake, KeSetEvent, wrapLONG_zero, wrapLONG_one, hirql, halloc, hcreate, href]; rfl)]
  rw [run_cons_step (by simp [step, ThreadCreate_step, ThreadFunction_step, boot, ASSERT, Sys.free, InterlockedDecrement, KeInitializeEvent, __ThreadAlert, __ThreadWake, KeSetEvent, wrapLONG_zero, wrapLONG_one, hirql, halloc, hcreate, href]; rfl)]
  rw [run_cons_step (by simp [step, ThreadCreate_step, ThreadFunction_step, boot, ASSERT, Sys.free, InterlockedDecrement, KeInitializeEvent, __ThreadAlert, __ThreadWake, KeSetEvent, wrapLONG_zero, wrapLONG_one, hirql, halloc, hcreate, href]; rfl)]
  rw [run_cons_step (by simp [step, ThreadCreate_step, ThreadFunction_step, boot, ASSERT, Sys.free, InterlockedDecrement, KeInitializeEvent, __ThreadAlert, __ThreadWake, KeSetEvent, wrapLONG_zero, wrapLONG_one, hirql, halloc, hcreate, href]; rfl)]
  rw [run_cons_step (by simp [step, ThreadCreate_step, ThreadFunction_step, boot, ASSERT, Sys.free, InterlockedDecrement, KeInitializeEvent, __ThreadAlert, __ThreadWake, KeSetEvent, wrapLONG_zero, wrapLONG_one, hirql, halloc, hcreate, href]; rfl)]
  rw [run_cons_step (by simp [step, ThreadCreate_step, ThreadFunction_step, boot, ASSERT, Sys.free, InterlockedDecrement, KeInitializeEvent, __ThreadAlert, __ThreadWake, KeSetEvent, wrapLONG_zero, wrapLONG_one, hirql, halloc, hcreate, href]; rfl)]
  rw [run_cons_step (by simp [step, ThreadCreate_step, ThreadFunction_step, boot, ASSERT, Sys.free, InterlockedDecrement, KeInitializeEvent, __ThreadAlert, __ThreadWake, KeSetEvent, wrapLONG_zero, wrapLONG_one, hirql, halloc, hcreate, href]; rfl)]
  rw [run_cons_step (by simp [step, ThreadCreate_step, ThreadFunction_step, boot, ASSERT, Sys.free, InterlockedDecrement, KeInitializeEvent, __ThreadAlert, __ThreadWake, KeSetEvent, wrapLONG_zero, wrapLONG_one, hirql, halloc, hcreate, href]; rfl)]
  rw [run_cons_step (by simp [step, ThreadCreate_step, ThreadFunction_step, boot, ASSERT, Sys.free, InterlockedDecrement, KeInitializeEvent, __ThreadAlert, __ThreadWake, KeSetEvent, wrapLONG_zero, wrapLONG_one, hirql, halloc, hcreate, href]; rfl)]
  rw [run_cons_step (by simp [step, ThreadCreate_step, ThreadFunction_step, boot, ASSERT, Sys.free, InterlockedDecrement, KeInitializeEvent, __ThreadAlert, __ThreadWake, KeSetEvent, wrapLONG_zero, wrapLONG_one, hirql, halloc, hcreate, href]; rfl)]
  exact ⟨_, rfl, rfl, rfl, rfl, rfl⟩

theorem fail3_worker_first (env : Env) (F C : Nat) (hirql : env.irql = PASSIVE_LEVEL)
    (halloc : env.allocResult ≠ NULL) (hcreate : NT_SUCCESS env.createStatus = true)
    (href : NT_SUCCESS env.refStatus = false) :
    ∃ s, run schedWorkerFirst (boot env F C) = some s ∧ s.cpc = .ret env.refStatus ∧
      exited s.wpc = true ∧
      s.decs = [⟨.worker, 2, 1⟩, ⟨.creator, 1, 0⟩] ∧ s.frees = [⟨.creator, 0⟩] := by
  unfold schedWorkerFirst
  rw [run_cons_step (by simp [step, ThreadCreate_step, ThreadFunction_step, boot, ASSERT, Sys.free, InterlockedDecrement, KeInitializeEvent, __ThreadAlert, __ThreadWake, KeSetEvent, wrapLONG_zero, wrapLONG_one, hirql, halloc, hcreate, href]; rfl)]
  rw [run_cons_step (by simp [step, ThreadCreate_step, ThreadFunction_step, boot, ASSERT, Sys.free, InterlockedDecrement, KeInitializeEvent, __ThreadAlert, __ThreadWake, KeSetEvent, wrapLONG_zero, wrapLONG_one, hirql, halloc, hcreate, href]; rfl)]
  rw [run_cons_step (by simp [step, ThreadCreate_step, ThreadFunction_step, boot, ASSERT, Sys.free, InterlockedDecrement, KeInitializeEvent, __ThreadAlert, __ThreadWake, KeSetEvent, wrapLONG_zero, wrapLONG_one, hirql, halloc, hcreate, href]; rfl)]
  rw [run_cons_step (by simp [step, ThreadCreate_step, ThreadFunction_step, boot, ASSERT, Sys.free, InterlockedDecrement, KeInitializeEvent, __ThreadAlert, __ThreadWake, KeSetEvent, wrapLONG_zero, wrapLONG_one, hirql, halloc, hcreate, href]; rfl)]
  rw [run_cons_step (by simp [step, ThreadCreate_step, ThreadFunction_step, boot, ASSERT, Sys.free, InterlockedDecrement, KeInitializeEvent, __ThreadAlert, __ThreadWake, KeSetEvent, wrapLONG_zero, wrapLONG_one, hirql, halloc, hcreate, href]; rfl)]
  rw [run_cons_step (by simp [step, ThreadCreate_step, ThreadFunction_step, boot, ASSERT, Sys.free, InterlockedDecrement, KeInitializeEvent, __ThreadAlert, __ThreadWake, KeSetEvent, wrapLONG_zero, wrapLONG_one, hirql, halloc, hcreate, href]; rfl)]
  rw [run_cons_step (by simp [step, ThreadCreate_step, ThreadFunction_step, boot, ASSERT, Sys.free, InterlockedDecrement, KeInitializeEvent, __ThreadAlert, __ThreadWake, KeSetEvent, wrapLONG_zero, wrapLONG_one, hirql, halloc, hcreate, href]; rfl)]
  rw [run_cons_step (by simp [step, ThreadCreate_step, ThreadFunction_step, boot, ASSERT, Sys.free, InterlockedDecrement, KeInitializeEvent, __ThreadAlert, __ThreadWake, KeSetEvent, wrapLONG_zero, wrapLONG_one, hirql, halloc, hcreate, href]; rfl)]
  rw [run_cons_step (by simp [step, ThreadCreate_step, ThreadFunction_step, boot, ASSERT, Sys.free, InterlockedDecrement, KeInitializeEvent, __ThreadAlert, __ThreadWake, KeSetEvent, wrapLONG_zero, wrapLONG_one, hirql, halloc, hcreate, href]; rfl)]
  rw [run_cons_step (by simp [step, ThreadCreate_step, ThreadFunction_step, boot, ASSERT, Sys.free, InterlockedDecrement, KeInitializeEvent, __ThreadAlert, __ThreadWake, KeSetEvent, wrapLONG_zero, wrapLONG_one, hirql, halloc, hcreate, href]; rfl)]
  rw [run_cons_step (by simp [step, ThreadCreate_step, ThreadFunction_step, boot, ASSERT, Sys.free, InterlockedDecrement, KeInitializeEvent, __ThreadAlert, __ThreadWake, KeSetEvent, wrapLONG_zero, wrapLONG_one, hirql, halloc, hcreate, href]; rfl)]
  rw [run_cons_step (by simp [step, ThreadCreate_step, ThreadFunction_step, boot, ASSERT, Sys.free, InterlockedDecrement, KeInitializeEvent, __ThreadAlert, __ThreadWake, KeSetEvent, wrapLONG_zero, wrapLONG_one, hirql, halloc, hcreate, href]; rfl)]
  rw [run_cons_step (by simp [step, ThreadCreate_step, ThreadFunction_step, boot, ASSERT, Sys.free, InterlockedDecrement, KeInitializeEvent, __ThreadAlert, __ThreadWake, KeSetEvent, wrapLONG_zero, wrapLONG_one, hirql, halloc, hcreate, href]; rfl)]
  rw [run_cons_step (by simp [step, ThreadCreate_step, ThreadFunction_step, boot, ASSERT, Sys.free, InterlockedDecrement, KeInitializeEvent, __ThreadAlert, __ThreadWake, KeSetEvent, wrapLONG_zero, wrapLONG_one, hirql, halloc, hcreate, href]; rfl)]
  rw [run_cons_step (by simp [step, ThreadCreate_step, ThreadFunction_step, boot, ASSERT, Sys.free, InterlockedDecrement, KeInitializeEvent, __ThreadAlert, __ThreadWake, KeSetEvent, wrapLONG_zero, wrapLONG_one, hirql, halloc, hcreate, href]; rfl)]
  rw [run_cons_step (by simp [step, ThreadCreate_step, ThreadFunction_step, boot, ASSERT, Sys.free, InterlockedDecrement, KeInitializeEvent, __ThreadAlert, __ThreadWake, KeSetEvent, wrapLONG_zero, wrapLONG_one, hirql, halloc, hcreate, href]; rfl)]
  rw [run_cons_step (by simp [step, ThreadCreate_step, ThreadFunction_step, boot, ASSERT, Sys.free, InterlockedDecrement, KeInitializeEvent, __ThreadAlert, __ThreadWake, KeSetEvent, wrapLONG_zero, wrapLONG_one, hirql, halloc, hcreate, href]; rfl)]
  rw [run_cons_step (by simp [step, ThreadCreate_step, ThreadFunction_step, boot, ASSERT, Sys.free, InterlockedDecrement, KeInitializeEvent, __ThreadAlert, __ThreadWake, KeSetEvent, wrapLONG_zero, wrapLONG_one, hirql, halloc, hcreate, href]; rfl)]
  exact ⟨_, rfl, rfl, rfl, rfl, rfl⟩

/-- C5: when the thread has been created and `ObReferenceObjectByHandle` fails with
status `refStatus`, `ThreadCreate` (entered at `PASSIVE_LEVEL`) returns that status
with `*Thread` set to `NULL`, having set `Alerted` and the event, closed the creation
handle and made its decrement; this holds in every state, under every schedule, in
which it has returned.  The worker is never freed twice, a free is made only by a
thread whose decrement returned 0, and once `ThreadCreate` has returned and
`ThreadFunction` has taken its exit step the worker has been freed exactly once, by the
thread that decremented second.  Both orders occur. -/
theorem C5_reference_acquisition_failure (env : Env) (F C : Nat)
    (hirql : env.irql = PASSIVE_LEVEL) (halloc : env.allocResult ≠ NULL)
    (hcreate : NT_SUCCESS env.createStatus = true)
    (href : NT_SUCCESS env.refStatus = false) :
    (∃ s0, ThreadCreate env F C = some s0 ∧ s0.cpc = .ret env.refStatus ∧ s0.out = NULL ∧
      s0.closed = [env.handle] ∧ s0.decs = [⟨.creator, 2, 1⟩] ∧ s0.frees = [] ∧
      ∃ t, s0.pool = some t ∧ t.Alerted = true ∧ t.Event = true) ∧
    (∀ ls s st, run ls (boot env F C) = some s → s.cpc = .ret st →
      st = env.refStatus ∧ s.out = NULL ∧ s.closed = [env.handle] ∧
      (∃ t, s.pool = some t ∧ t.Alerted = true ∧ t.Event = true) ∧
      (∃ d ∈ s.decs, d.who = .creator) ∧
      (exited s.wpc = true →
        (s.decs = [⟨.creator, 2, 1⟩, ⟨.worker, 1, 0⟩] ∧ s.frees = [⟨.worker, 0⟩]) ∨
        (s.decs = [⟨.worker, 2, 1⟩, ⟨.creator, 1, 0⟩] ∧ s.frees = [⟨.creator, 0⟩]))) ∧
    (∀ ls s, run ls (boot env F C) = some s →
      s.frees.length ≤ 1 ∧ ∀ f ∈ s.frees, f.observed = 0) ∧
    (∃ ls s, run ls (boot env F C) = some s ∧ s.cpc = .ret env.refStatus ∧
      exited s.wpc = true ∧
      s.decs = [⟨.creator, 2, 1⟩, ⟨.worker, 1, 0⟩] ∧ s.frees = [⟨.worker, 0⟩]) ∧
    (∃ ls s, run ls (boot env F C) = some s ∧ s.cpc = .ret env.refStatus ∧
      exited s.wpc = true ∧
      s.decs = [⟨.worker, 2, 1⟩, ⟨.creator, 1, 0⟩] ∧ s.frees = [⟨.creator, 0⟩]) := by
  refine ⟨⟨_, ThreadCreate_fail3 env F C hirql halloc hcreate href, rfl, rfl, rfl, rfl, rfl,
    _, rfl, rfl, rfl⟩, ?_, ?_, ⟨_, fail3_creator_first env F C hirql halloc hcreate href⟩,
    ⟨_, fail3_worker_first env F C hirql halloc hcreate href⟩⟩
  · intro ls s st h hret
    obtain ⟨hi, he, -⟩ := Inv_reach h
    have := fail3_state hi (he ▸ halloc) (he ▸ hcreate) (he ▸ href) hret
    rw [he] at this
    exact this
  · intro ls s h
    exact frees_bound (Inv_reach h).1.2.books

/-- Witness of C5: `ObReferenceObjectByHandle` fails with `STATUS_NO_MEMORY`. -/
theorem C5_reference_acquisition_failure_witness :
    ∃ s0, ThreadCreate envNoReference 1 2 = some s0 ∧ s0.cpc = .ret STATUS_NO_MEMORY ∧
      s0.out = NULL ∧ s0.closed = [12] ∧ s0.decs = [⟨.creator, 2, 1⟩] ∧ s0.frees = [] ∧
      ∃ t, s0.pool = some t ∧ t.Alerted = true ∧ t.Event = true :=
  (C5_reference_acquisition_failure envNoReference 1 2 rfl (by decide) (by decide)
    (by decide)).1

theorem applyCalls_alerted (calls : List Call) (t : XENIFACE_THREAD) :
    ThreadIsAlerted (applyCalls calls t) = (ThreadIsAlerted t || decide (Call.alert ∈ calls)) := by
  induction calls generalizing t with
  | nil => simp [applyCalls]
  | cons c cs ih =>
    cases c <;> rw [applyCalls, ih] <;>
      simp [Call.apply, ThreadWake, ThreadAlert, __ThreadAlert, __ThreadWake, ThreadIsAlerted]

theorem step_alerted {l : Label} {s s' : Sys} {st : Int} {t : XENIFACE_THREAD}
    (hret : s.cpc = .ret st) (hp : s.pool = some t) (h : step l s = some s') :
    ∃ t', s'.pool = some t' ∧
      ThreadIsAlerted t' = (ThreadIsAlerted t || decide (l = .alert)) := by
  obtain ⟨env, F, C, out, status, Handle, pool, cpc, wpc, jpc, fault, decs, frees, waits, closed⟩ := s
  simp only at hret hp
  subst hret hp
  unfold step at h
  split at h
  · simp at h
  · cases l
    · simp [ThreadCreate_step] at h
    · cases wpc <;> simp [ThreadFunction_step, Sys.free] at h <;>
        (try split at h) <;> subst h <;> simp [InterlockedDecrement, ThreadIsAlerted]
    · cases jpc <;>
        simp only [join_step, ThreadJoin_step, ASSERT, Sys.free, Option.map, Option.bind] at h <;>
        (repeat' split at h) <;> simp at h <;> (try (obtain ⟨-, h⟩ := h)) <;>
        simp [InterlockedDecrement, ThreadIsAlerted]
    · simp [call_step] at h
      obtain ⟨hw, hf, h⟩ := h
      subst h
      simp [Call.apply, ThreadWake, __ThreadWake, ThreadIsAlerted]
    · simp [call_step] at h
      obtain ⟨hw, hf, h⟩ := h
      subst h
      simp [Call.apply, ThreadAlert, __ThreadAlert, __ThreadWake, ThreadIsAlerted]

theorem run_alerted {ls : List Label} {s s' : Sys} {st : Int} {t : XENIFACE_THREAD}
    (hret : s.cpc = .ret st) (hp : s.pool = some t) (h : run ls s = some s') :
    ∃ t', s'.pool = some t' ∧
      ThreadIsAlerted t' = (ThreadIsAlerted t || decide (Label.alert ∈ ls)) := by
  induction ls generalizing s t with
  | nil =>
    simp [run] at h
    subst h
    exact ⟨t, hp, by simp⟩
  | cons l ls ih =>
    simp only [run] at h
    cases hl : step l s with
    | none => simp [hl] at h
    | some m =>
      rw [hl] at h
      obtain ⟨t1, hp1, ha1⟩ := step_alerted hret hp hl
      obtain ⟨t2, hp2, ha2⟩ := ih (step_ret hret hl) hp1 h
      refine ⟨t2, hp2, ?_⟩
      rw [ha2, ha1]
      cases l <;> simp [Bool.or_assoc]

/-- C6: let `w` be the worker that a successful `ThreadCreate` returns.  Its `Alerted`
flag is clear.  After any sequence of `ThreadWake` and `ThreadAlert` calls applied to
`w`, `ThreadIsAlerted` returns `TRUE` exactly when the sequence contains a
`ThreadAlert`; `ThreadWake` never changes what `ThreadIsAlerted` returns; no call
resets the flag; and the same holds when the calls are interleaved in any way with the
statements of the worker thread and of `ThreadJoin`. -/
theorem C6_alerted_iff_alert_called (env : Env) (F C : Nat) (s0 : Sys) (w : XENIFACE_THREAD)
    (h0 : ThreadCreate env F C = some s0) (hok : s0.cpc = .ret STATUS_SUCCESS)
    (hw : s0.pool = some w) :
    ThreadIsAlerted w = false ∧
    (∀ calls, ThreadIsAlerted (applyCalls calls w) = true ↔ Call.alert ∈ calls) ∧
    (∀ t, ThreadIsAlerted (ThreadWake t) = ThreadIsAlerted t) ∧
    (∀ c t, ThreadIsAlerted t = true → ThreadIsAlerted (Call.apply c t) = true) ∧
    (∀ ls s, run ls s0 = some s →
      ∃ t, s.pool = some t ∧ (ThreadIsAlerted t = true ↔ Label.alert ∈ ls)) := by
  obtain ⟨hirql, halloc, hcreate, href⟩ := ThreadCreate_success_inv h0 hok
  have hfresh : ThreadIsAlerted w = false := by
    rw [ThreadCreate_success env F C hirql halloc hcreate href] at h0
    cases h0
    simp at hw
    subst hw
    rfl
  refine ⟨hfresh, ?_, ?_, ?_, ?_⟩
  · intro calls
    simp [applyCalls_alerted, hfresh]
  · intro t
    rfl
  · intro c t ht
    cases c
    · exact ht
    · rfl
  · intro ls s h
    obtain ⟨t, hp, ha⟩ := run_alerted hok hw h
    exact ⟨t, hp, by simp [ha, hfresh]⟩

/-- Witness of C6: a wake, an alert and a wake applied to the worker created in
`envOK`. -/
theorem C6_alerted_iff_alert_called_witness :
    ThreadCreate envOK 1 2 = some createdOK ∧ createdOK.cpc = .ret STATUS_SUCCESS ∧
    createdOK.pool = some ⟨1, 2, false, false, 2, 77⟩ ∧
    ThreadIsAlerted (applyCalls [.wake, .alert, .wake] ⟨1, 2, false, false, 2, 77⟩) = true :=
  ⟨rfl, rfl, rfl,
   ((C6_alerted_iff_alert_called envOK 1 2 createdOK ⟨1, 2, false, false, 2, 77⟩ rfl rfl
      rfl).2.1 [.wake, .alert, .wake]).2 (by decide)⟩

theorem alertTimes_succ (n : Nat) (t : XENIFACE_THREAD) :
    alertTimes (n + 1) t = ThreadAlert t := by
  induction n generalizing t with
  | zero => rfl
  | succ n ih =>
    rw [alertTimes, ih]
    rfl

/-- C7: for every worker state and every N at least 1, N calls of `ThreadAlert` leave
the same state as one call, and that state is the original one with `Alerted` set to
`TRUE` and the event signalled: `Function`, `Context`, `References` and `Thread` are
unchanged. -/
theorem C7_alert_idempotent (t : XENIFACE_THREAD) (n : Nat) (hn : 1 ≤ n) :
    alertTimes n t = ThreadAlert t ∧
    ThreadAlert t = { t with Alerted := true, Event := true } ∧
    (ThreadAlert t).Function = t.Function ∧ (ThreadAlert t).Context = t.Context ∧
    (ThreadAlert t).References = t.References ∧ (ThreadAlert t).Thread = t.Thread := by
  obtain ⟨m, rfl⟩ : ∃ m, n = m + 1 := ⟨n - 1, by omega⟩
  exact ⟨alertTimes_succ m t, rfl, rfl, rfl, rfl, rfl⟩

/-- Witness of C7: three calls of `ThreadAlert`. -/
theorem C7_alert_idempotent_witness :
    alertTimes 3 ⟨1, 2, false, false, 2, 77⟩ = ⟨1, 2, true, true, 2, 77⟩ :=
  (C7_alert_idempotent ⟨1, 2, false, false, 2, 77⟩ 3 (by decide)).1

theorem ThreadJoin_run_fault (n : Nat) (s : Sys) (h : s.fault.isSome = true) :
    ThreadJoin_run n s = some s := by
  cases n with
  | zero => rfl
  | succ n => simp [ThreadJoin_run, h]

theorem halted (s : Sys) (f : Fault) (l : Label) :
    step l { s with fault := some f } = none := by
  simp [step]

/-- Outside the condition of C8: when the worker function calls `ThreadJoin` before
line 157 has stored the thread object, line 214 compares the caller with the field as
allocated, the comparison of the claim does not hold, and `ThreadJoin` goes on to its
wait. -/
theorem ThreadJoin_before_store :
    run (List.replicate 5 Label.creator) (boot envSelf 1 2) = some startedSelf ∧
    ThreadJoin_run 4 startedSelf = some { startedSelf with jpc := .blocked, waits := 1 } :=
  ⟨rfl, rfl⟩

/-- C8: let the caller of `ThreadJoin` be the thread that the field `Thread` of the
worker designates (`KeGetCurrentThread() == Thread->Thread`).  First, in any state in
which `ThreadJoin` is at line 214 and the comparison holds, whatever the other threads
have done and whether or not `ThreadCreate` has returned, its next statement records
the failure of the assertion and changes nothing else: no wait is issued, `References`
is not decremented, nothing is freed; afterwards no thread moves.  Second, executed
from its call with no other thread moving, `ThreadJoin` stops within three statements,
at line 214 (or at line 213 when the IRQL is not `PASSIVE_LEVEL`), with only its program
counter and the fault changed.  Third, in any state the call and line 213 leave the
wait count, the worker, the decrements and the frees as they were. -/
theorem C8_self_join_fails_fast (s : Sys) (t : XENIFACE_THREAD)
    (hf : s.fault = none) (hp : s.pool = some t) (hself : s.env.joinCaller = t.Thread) :
    (s.jpc = .L214 →
      ThreadJoin_step s = some { s with fault := some .L214 } ∧
      step .joiner s = some { s with fault := some .L214 } ∧
      ∀ l, step l { s with fault := some .L214 } = none) ∧
    (s.jpc = .idle → ∀ n, 3 ≤ n →
      ∃ s', ThreadJoin_run n s = some s' ∧
        s' = (if s.env.joinIrql = PASSIVE_LEVEL then
                { s with jpc := .L214, fault := some .L214 }
              else { s with jpc := .L213, fault := some .L213 }) ∧
        early s'.jpc = true ∧ s'.waits = s.waits ∧ s'.pool = s.pool ∧
        s'.decs = s.decs ∧ s'.frees = s.frees ∧ ∀ l, step l s' = none) ∧
    (∀ u u', (u.jpc = .idle ∨ u.jpc = .L213) → ThreadJoin_step u = some u' →
      early u'.jpc = true ∧ u'.waits = u.waits ∧ u'.pool = u.pool ∧
      u'.decs = u.decs ∧ u'.frees = u.frees) := by
  obtain ⟨env, F, C, out, status, Handle, pool, cpc, wpc, jpc, fault, decs, frees, waits, closed⟩ := s
  simp only at hf hp hself
  subst hf hp
  refine ⟨?_, ?_, ?_⟩
  · intro hj
    simp only at hj
    subst hj
    refine ⟨?_, ?_, fun l => halted _ _ l⟩
    · simp [ThreadJoin_step, ASSERT, hself]
    · simp [step, join_step, ThreadJoin_step, ASSERT, hself]
  · intro hj n hn
    simp only at hj
    subst hj
    obtain ⟨m, rfl⟩ : ∃ m, n = m + 3 := ⟨n - 3, by omega⟩
    refine ⟨_, ?_, rfl, ?_⟩
    · by_cases hi : env.joinIrql = PASSIVE_LEVEL <;>
        simp [ThreadJoin_run, ThreadJoin_step, ASSERT, hself, hi, ThreadJoin_run_fault]
    · by_cases hi : env.joinIrql = PASSIVE_LEVEL <;> simp [hi, early, step]
  · intro u u' hu h
    obtain ⟨env, F, C, out, status, Handle, pool, cpc, wpc, jpc, fault, decs, frees, waits, closed⟩ := u
    simp only at hu
    rcases hu with hu | hu <;> subst hu <;> simp [ThreadJoin_step, ASSERT] at h
    · subst h
      simp [early]
    · split at h <;> subst h <;> simp [early]

/-- Witness of C8: in `envSelf` the worker thread calls `ThreadJoin` on itself, once
while `ThreadCreate` has not yet returned (`storedSelf`) and once after it has
(`selfJoining`). -/
theorem C8_self_join_fails_fast_witness :
    run schedStored (boot envSelf 1 2) = some storedSelf ∧
    storedSelf.pool = some ⟨1, 2, false, false, 2, 77⟩ ∧ envSelf.joinCaller = 77 ∧
    (∃ s', ThreadJoin_run 3 storedSelf = some s' ∧
      s' = { storedSelf with jpc := .L214, fault := some .L214 } ∧
      early s'.jpc = true ∧ s'.waits = storedSelf.waits ∧ s'.pool = storedSelf.pool ∧
      s'.decs = storedSelf.decs ∧ s'.frees = storedSelf.frees ∧ ∀ l, step l s' = none) ∧
    run schedSelf (boot envSelf 1 2) = some selfJoining ∧
    step .joiner selfJoining = some { selfJoining with fault := some .L214 } :=
  ⟨rfl, rfl, rfl,
   (C8_self_join_fails_fast storedSelf ⟨1, 2, false, false, 2, 77⟩ rfl rfl rfl).2.1 rfl 3
     (by decide),
   rfl,
   ((C8_self_join_fails_fast selfJoining ⟨1, 2, false, false, 2, 77⟩ rfl rfl rfl).1 rfl).2.1⟩

end Xeniface
